import Mathlib

/-!
Verification of the rs-sdk porcelain action layer (`src/sdk/actions.ts`).

The TypeScript source drives a remote game session through intent-only
commands and verifies their effects by polling immutable world snapshots.
This development shallowly embeds the action layer: each action becomes a
pure Lean function over an explicit trace of snapshots (one parameter per
`getState()` read, a list of snapshots per `waitForCondition` call), and
returns its structured result together with the list of primitive commands
it issued.  Real-time waits are discretized: a `waitForCondition` call is
modelled by the first snapshot of its polling trace satisfying the
predicate (`none` = timeout), and the one real-time polling loop
(`waitForMovementComplete`) is modelled with an explicit 150 ms poll
counter.  Euclidean distance comparisons (`Math.sqrt(dx^2+dz^2) <= tol`)
are embedded exactly by comparing squares.
-/

namespace RsSdk

/-- Lower-case a string, as `String.prototype.toLowerCase` does for the
ASCII message text compared in the source. -/
def lc (s : String) : String := ⟨s.data.map Char.toLower⟩

/-- `pat` starts the character list `l`. -/
def startsWithL : List Char → List Char → Bool
  | _, [] => true
  | [], _ :: _ => false
  | a :: as, p :: ps => a == p && startsWithL as ps

/-- `pat` occurs as a contiguous run inside the character list. -/
def hasSubL (pat : List Char) : List Char → Bool
  | [] => startsWithL [] pat
  | a :: t => startsWithL (a :: t) pat || hasSubL pat t

/-- Substring containment, as `String.prototype.includes`. -/
def containsSub (s pat : String) : Bool := hasSubL pat.data s.data

/-- The apostrophe character, used to spell game-message phrases. -/
def apos : Char := Char.ofNat 39

/-- The phrase `can't reach` from the game chat. -/
def cantReachStr : String := "can" ++ String.singleton apos ++ "t reach"

/-- The phrase `can't sell this item` from the game chat. -/
def cantSellStr : String := "can" ++ String.singleton apos ++ "t sell this item"

/-- The phrase `can't sell this item to this shop` from the game chat. -/
def cantSellHereStr : String := cantSellStr ++ " to this shop"

/-- The phrase `can't sell this item to a shop` from the game chat. -/
def cantSellAnyStr : String := cantSellStr ++ " to a shop"

/-- The phrase `don't have enough` from the game chat. -/
def dontHaveEnoughStr : String := "don" ++ String.singleton apos ++ "t have enough"

/-- The phrase `can't light a fire` from the game chat. -/
def cantLightStr : String := "can" ++ String.singleton apos ++ "t light a fire"

/-- The phrase `can't do that here` from the game chat. -/
def cantDoHereStr : String := "can" ++ String.singleton apos ++ "t do that here"

/-- A tick-stamped chat message (`gameMessages` entries). -/
structure ChatMsg where
  tick : Int
  text : String
deriving Repr, DecidableEq

/-- An interaction option with its op index (`optionsWithIndex` entries). -/
structure OptionEntry where
  text : String
  opIndex : Nat
deriving Repr, DecidableEq

/-- An inventory (or equipment) item as read from a snapshot. -/
structure InvItem where
  slot : Nat
  id : Nat
  name : String
  count : Int
  optionsWithIndex : List OptionEntry
deriving Repr, DecidableEq

/-- A shop-interface item stack (used both for `shopItems` and the
player-side `playerItems`). -/
structure ShopItem where
  slot : Nat
  id : Nat
  name : String
  count : Int
deriving Repr, DecidableEq

/-- A nearby NPC as read from a snapshot. -/
structure NearbyNpc where
  index : Nat
  name : String
  distance : Int
  optionsWithIndex : List OptionEntry
deriving Repr, DecidableEq

/-- A nearby location (scenery object) as read from a snapshot. -/
structure NearbyLoc where
  x : Int
  z : Int
  id : Nat
  name : String
  distance : Int
  options : List String
  optionsWithIndex : List OptionEntry
deriving Repr, DecidableEq

/-- A skill entry (`skills` entries): name, boosted level, base level,
experience. -/
structure SkillState where
  name : String
  level : Int
  baseLevel : Int
  experience : Int
deriving Repr, DecidableEq

/-- The shop part of a snapshot. -/
structure ShopState where
  isOpen : Bool
  title : String
  shopItems : List ShopItem
  playerItems : List ShopItem
deriving Repr, DecidableEq

/-- One option of an open dialog. -/
structure DialogOption where
  text : String
  index : Nat
deriving Repr, DecidableEq

/-- The dialog part of a snapshot. -/
structure DialogState where
  isOpen : Bool
  options : List DialogOption
deriving Repr, DecidableEq

/-- One immutable world snapshot (`BotWorldState`), restricted to the
fields the action layer reads.  `player` is the world position
(`worldX`, `worldZ`) when a player entity is present, and
`interfaceOpen` is the `interface?.isOpen` flag of the modal (bank)
interface. -/
structure Snapshot where
  tick : Int
  player : Option (Int × Int)
  inventory : List InvItem
  equipment : List InvItem
  skills : List SkillState
  gameMessages : List ChatMsg
  nearbyNpcs : List NearbyNpc
  nearbyLocs : List NearbyLoc
  shop : ShopState
  interfaceOpen : Bool
  dialog : DialogState
deriving Repr, DecidableEq

/-- Modelled from the spec: `waitForCondition(predicate, timeoutMs)` of the
ConditionWaiter (its implementation, `sdk/index.ts`, is not part of the
provided sources).  Spec section 4.1: it polls the snapshot stream until
the predicate holds and returns that snapshot, failing with
`ConditionTimeout` otherwise.  The polling trace of one call is a finite
list of snapshots; the result is the first satisfying snapshot, and `none`
models the timeout rejection. -/
def waitForCondition (p : Snapshot → Bool) (stream : List Snapshot) : Option Snapshot :=
  stream.find? p

/-- The regex patterns the action layer uses, restricted to the forms that
actually occur in the source: case-insensitive alternation of substrings,
case-insensitive anchored alternation (`/^word$/i`), and the wildcard
`/./`. -/
inductive Pat where
  | containsAnyCI (alts : List String)
  | exactAnyCI (alts : List String)
  | wildcard
deriving Repr, DecidableEq

/-- `RegExp.prototype.test` for the pattern forms of `Pat`. -/
def Pat.test : Pat → String → Bool
  | .containsAnyCI alts, t => alts.any (fun a => containsSub (lc t) a)
  | .exactAnyCI alts, t => alts.any (fun a => lc t == a)
  | .wildcard, t => !t.isEmpty

/-- A caller-supplied target: a resolved handle or a symbolic pattern. -/
inductive Target (α : Type) where
  | handle (h : α)
  | pattern (p : Pat)
deriving Repr, DecidableEq

/-- The primitive intent-only commands the layer can issue. -/
inductive Cmd where
  | findPath (x z : Int) (maxWaypoints : Nat)
  | findPathIntermediate (dist offset : Int)
  | walk (x z : Int)
  | interactNpc (index op : Nat)
  | interactLoc (x z : Int) (id op : Nat)
  | talkNpc (index : Nat)
  | pickup (x z : Int) (id : Nat)
  | useItem (slot op : Nat)
  | useItemOnItem (a b : Nat)
  | useEquipmentItem (slot op : Nat)
  | clickDialog (n : Nat)
  | bankDeposit (slot : Nat) (amount : Int)
  | bankWithdraw (slot : Nat) (amount : Int)
  | shopBuy (slot : Nat) (amount : Int)
  | shopSell (slot : Nat) (amount : Int)
  | closeShopCmd
  | closeModal
  | spellOnNpc (index : Nat) (component : Int)
deriving Repr, DecidableEq

/-- Squared Euclidean distance between two points.  The source compares
`Math.sqrt(dx^2 + dz^2)` against thresholds; all such comparisons are
embedded exactly through this square. -/
def dist2 (x1 z1 x2 z2 : Int) : Int := (x1 - x2) ^ 2 + (z1 - z2) ^ 2

/-- `sqrt d2 <= tol`, exactly: true iff `tol` is nonnegative and
`d2 <= tol^2`. -/
def distLe (d2 tol : Int) : Bool := decide (0 ≤ tol) && decide (d2 ≤ tol * tol)

/-- The result record of `waitForMovementComplete`. -/
structure MoveResult where
  arrived : Bool
  stoppedMoving : Bool
  x : Int
  z : Int
deriving Repr, DecidableEq

/-- `elapsed < maxTimeout` for `waitForMovementComplete`, exactly.
`maxTimeout = max(MIN_TIMEOUT, (dist / 4.5) * 1000 * 1.5)` with
`MIN_TIMEOUT = 2000` and `dist = sqrt d2`; the margin term equals
`sqrt d2 * 1000 / 3`, so for nonnegative integer elapsed `t`,
`t < maxTimeout` iff `t < 2000` or `9 t^2 < 1000000 d2`. -/
def ltMaxTimeout (d2 : Int) (t : Nat) : Bool :=
  decide (t < 2000) || decide (9 * (t : Int) ^ 2 < 1000000 * d2)

/-- The final fall-through result of `waitForMovementComplete` when the
adaptive timeout elapses: one more `getState()` read (poll index `n`,
defaulting to the last seen position) and an arrival check. -/
def wfmcFinal (pos : Nat → Option (Int × Int)) (tx tz tol lastX lastZ : Int)
    (n : Nat) : MoveResult :=
  let f := match pos n with
    | some p => p
    | none => (lastX, lastZ)
  ⟨distLe (dist2 tx tz f.1 f.2) tol, true, f.1, f.2⟩

/-- The polling loop of `waitForMovementComplete`.  `pos k` is the player
position read at poll `k` (poll 0 is the initial `getState()`), `n` the
number of completed polls, so the guard `Date.now() - startTime <
maxTimeout` reads `150 * n` and the poll after the 150 ms sleep reads
`pos (n+1)` at time `150 * (n+1)`.  `lastMoveT` is the last time the
position changed.  `fuel` bounds the recursion; the top-level wrapper
passes enough fuel that the time guard always fails first. -/
def wfmcGo (pos : Nat → Option (Int × Int)) (tx tz tol d2start : Int)
    (lastX lastZ : Int) (lastMoveT : Nat) (n : Nat) : Nat → MoveResult
  | 0 => wfmcFinal pos tx tz tol lastX lastZ n
  | fuel + 1 =>
    if ltMaxTimeout d2start (150 * n) then
      match pos (n + 1) with
      | none => ⟨false, true, lastX, lastZ⟩
      | some (cx, cz) =>
        if distLe (dist2 tx tz cx cz) tol then ⟨true, false, cx, cz⟩
        else if cx = lastX ∧ cz = lastZ then
          if 150 * (n + 1) - lastMoveT > 600 then ⟨false, true, cx, cz⟩
          else wfmcGo pos tx tz tol d2start lastX lastZ lastMoveT (n + 1) fuel
        else wfmcGo pos tx tz tol d2start cx cz (150 * (n + 1)) (n + 1) fuel
    else wfmcFinal pos tx tz tol lastX lastZ n

/-- Fuel that outlasts the adaptive timeout: `150 * wfmcFuel d2` is at
least `max 2000 (sqrt d2 * 1000 / 3)`. -/
def wfmcFuel (d2 : Int) : Nat := 14 + 3 * d2.toNat

/-- `waitForMovementComplete(targetX, targetZ, tolerance)` from
`src/sdk/actions.ts`: adaptive-timeout polling for arrival within
`tolerance` of the target, with stuck detection (no position change for
more than `STUCK_THRESHOLD = 600` ms).  It is a total function: the
source never throws here. -/
def waitForMovementComplete (pos : Nat → Option (Int × Int))
    (tx tz tol : Int) : MoveResult :=
  match pos 0 with
  | none => ⟨false, true, 0, 0⟩
  | some (sx, sz) =>
    let d2 := dist2 tx tz sx sz
    wfmcGo pos tx tz tol d2 sx sz 0 0 (wfmcFuel d2)

/-- One stay-in-place step of the polling loop at poll count `n`, when the
position is frozen, the target is out of tolerance, and neither the stuck
threshold nor the adaptive timeout has elapsed. -/
theorem wfmcGo_stay (pos : Nat → Option (Int × Int)) (tx tz tol px pz : Int)
    (n : Nat) (f : Nat)
    (hfrozen : ∀ k, pos k = some (px, pz))
    (hfar : distLe (dist2 tx tz px pz) tol = false)
    (hguard : ltMaxTimeout (dist2 tx tz px pz) (150 * n) = true)
    (hstay : ¬ 150 * (n + 1) - 0 > 600) :
    wfmcGo pos tx tz tol (dist2 tx tz px pz) px pz 0 n (f + 1) =
      wfmcGo pos tx tz tol (dist2 tx tz px pz) px pz 0 (n + 1) f := by
  simp [wfmcGo, hfrozen, hfar, hguard, hstay]
  exact fun h => absurd h (by omega)

/-- The stuck exit of the polling loop: with a frozen position, at the
first poll strictly beyond the 600 ms stuck threshold the loop returns
`arrived := false`, `stoppedMoving := true` with the frozen position. -/
theorem wfmcGo_stuckExit (pos : Nat → Option (Int × Int)) (tx tz tol px pz : Int)
    (n : Nat) (f : Nat)
    (hfrozen : ∀ k, pos k = some (px, pz))
    (hfar : distLe (dist2 tx tz px pz) tol = false)
    (hguard : ltMaxTimeout (dist2 tx tz px pz) (150 * n) = true)
    (hstuck : 150 * (n + 1) - 0 > 600) :
    wfmcGo pos tx tz tol (dist2 tx tz px pz) px pz 0 n (f + 1) =
      ⟨false, true, px, pz⟩ := by
  simp [wfmcGo, hfrozen, hfar, hguard, hstuck]
  exact fun h => absurd hstuck (by omega)

/-- With a frozen position stream, for any fuel of the form `f + 5` the
loop exits stuck after exactly 5 polls (750 ms of poll time). -/
theorem wfmcGo_frozen5 (pos : Nat → Option (Int × Int)) (tx tz tol px pz : Int)
    (f : Nat)
    (hfrozen : ∀ k, pos k = some (px, pz))
    (hfar : distLe (dist2 tx tz px pz) tol = false) :
    wfmcGo pos tx tz tol (dist2 tx tz px pz) px pz 0 0 (f + 5) =
      ⟨false, true, px, pz⟩ := by
  have g : ∀ n, n ≤ 4 → ltMaxTimeout (dist2 tx tz px pz) (150 * n) = true := by
    intro n hn
    have : 150 * n < 2000 := by omega
    simp [ltMaxTimeout, this]
  have e0 := wfmcGo_stay pos tx tz tol px pz 0 (f + 4) hfrozen hfar
    (g 0 (by omega)) (by omega)
  have e1 := wfmcGo_stay pos tx tz tol px pz 1 (f + 3) hfrozen hfar
    (g 1 (by omega)) (by omega)
  have e2 := wfmcGo_stay pos tx tz tol px pz 2 (f + 2) hfrozen hfar
    (g 2 (by omega)) (by omega)
  have e3 := wfmcGo_stay pos tx tz tol px pz 3 (f + 1) hfrozen hfar
    (g 3 (by omega)) (by omega)
  have e4 := wfmcGo_stuckExit pos tx tz tol px pz 4 f hfrozen hfar
    (g 4 (by omega)) (by omega)
  have s0 : f + 5 = (f + 4) + 1 := by omega
  have s1 : f + 4 = (f + 3) + 1 := by omega
  have s2 : f + 3 = (f + 2) + 1 := by omega
  have s3 : f + 2 = (f + 1) + 1 := by omega
  rw [s0, e0, s1, e1, s2, e2, s3, e3, e4]

/-- Claim C7: for every snapshot stream in which the player position stays
unchanged (frozen) while the distance to the target exceeds the tolerance,
`waitForMovementComplete` returns `{arrived := false, stoppedMoving :=
true}` with the frozen position; it does so after only 5 polls (750 ms of
poll time, as the second conjunct shows by running the loop with fuel 5),
which is strictly before the adaptive timeout `max(2000, dist/4.5 * 1000 *
1.5)` elapses (third conjunct: 750 ms is still inside the timeout window).
The model is a total function, so the call never throws. -/
theorem waitForMovementComplete_frozen_stuck
    (pos : Nat → Option (Int × Int)) (tx tz tol px pz : Int)
    (hfrozen : ∀ k, pos k = some (px, pz))
    (hfar : distLe (dist2 tx tz px pz) tol = false) :
    waitForMovementComplete pos tx tz tol = ⟨false, true, px, pz⟩ ∧
    wfmcGo pos tx tz tol (dist2 tx tz px pz) px pz 0 0 5 = ⟨false, true, px, pz⟩ ∧
    ltMaxTimeout (dist2 tx tz px pz) 750 = true := by
  refine ⟨?_, ?_, by simp [ltMaxTimeout]⟩
  · have hfuel : wfmcFuel (dist2 tx tz px pz) =
        (9 + 3 * (dist2 tx tz px pz).toNat) + 5 := by
      simp [wfmcFuel]; omega
    simp only [waitForMovementComplete, hfrozen 0]
    rw [hfuel]
    exact wfmcGo_frozen5 pos tx tz tol px pz _ hfrozen hfar
  · exact wfmcGo_frozen5 pos tx tz tol px pz 0 hfrozen hfar

/-- Witness for C7: a concrete frozen stream at (10, 10) with target
(50, 50) and tolerance 3. -/
theorem waitForMovementComplete_frozen_stuck_witness :
    waitForMovementComplete (fun _ => some (10, 10)) 50 50 3 =
      ⟨false, true, 10, 10⟩ :=
  (waitForMovementComplete_frozen_stuck (fun _ => some (10, 10)) 50 50 3 10 10
    (fun _ => rfl) (by decide)).1

/-- The result of a `sendFindPath` call (`{success, waypoints?}`; a
missing or absent waypoint array is the empty list). -/
structure PathRes where
  success : Bool
  waypoints : List (Int × Int)
deriving Repr, DecidableEq

/-- Observation trace for one `walkTo` call: the successive `getState()`
player reads, the successive `sendFindPath` results, the successive
`waitForMovementComplete` results (that private helper is modelled
separately, see `waitForMovementComplete`), and the polling trace of the
direct-walk fallback `waitForCondition`. -/
structure WalkEnv where
  states : List (Option (Int × Int))
  paths : List PathRes
  moves : List MoveResult
  direct : List (Option (Int × Int))
deriving Repr, DecidableEq

/-- Consume the next `getState()` read; an exhausted trace reads as a
missing player. -/
def popState (env : WalkEnv) : Option (Int × Int) × WalkEnv :=
  match env.states with
  | [] => (none, env)
  | s :: rest => (s, { env with states := rest })

/-- Consume the next `sendFindPath` result; an exhausted trace reads as a
failed query. -/
def popPath (env : WalkEnv) : PathRes × WalkEnv :=
  match env.paths with
  | [] => (⟨false, []⟩, env)
  | p :: rest => (p, { env with paths := rest })

/-- Consume the next `waitForMovementComplete` result; an exhausted trace
reads as a stuck non-arrival. -/
def popMove (env : WalkEnv) : MoveResult × WalkEnv :=
  match env.moves with
  | [] => (⟨false, true, 0, 0⟩, env)
  | m :: rest => (m, { env with moves := rest })

/-- `{success, message}` as returned by `walkTo` and the close helpers. -/
structure ActionResult where
  success : Bool
  message : String
deriving Repr, DecidableEq

/-- Renders `(${x}, ${z})` as interpolated in the source messages. -/
def coordStr (x z : Int) : String :=
  "(" ++ toString x ++ ", " ++ toString z ++ ")"

/-- Message `Already at (${x}, ${z})`. -/
def alreadyMsg (x z : Int) : String := "Already at " ++ coordStr x z

/-- Message `Arrived at (${x}, ${z})`. -/
def arrivedMsg (x z : Int) : String := "Arrived at " ++ coordStr x z

/-- Message `No path found to (${x}, ${z})`. -/
def noPathMsg (x z : Int) : String := "No path found to " ++ coordStr x z

/-- Message `Stuck at (${ax}, ${az}) - cannot reach (${x}, ${z})`. -/
def stuckMsg (ax az x z : Int) : String :=
  "Stuck at " ++ coordStr ax az ++ " - cannot reach " ++ coordStr x z

/-- Message `Could not reach (${x}, ${z}) - stopped at (${fx}, ${fz})`. -/
def couldNotMsg (x z fx fz : Int) : String :=
  "Could not reach " ++ coordStr x z ++ " - stopped at " ++ coordStr fx fz

/-- `progressMade < 5` exactly, where `progressMade = sqrt d2old - sqrt
d2new`: for nonnegative squared distances this holds iff `d2old - d2new -
25 < 0` or `(d2old - d2new - 25)^2 < 100 * d2new`. -/
def progressLt5 (d2old d2new : Int) : Bool :=
  decide (d2old - d2new - 25 < 0) ||
    decide ((d2old - d2new - 25) ^ 2 < 100 * d2new)

/-- The `(distance, offset)` pairs tried by the long-range intermediate
waypoint search, in order: `INTERMEDIATE_DISTANCES = [60, 40, 25]` (each
skipped when `dist >= distToGoal`, i.e. unless `dist^2 < d2`) crossed with
`PERPENDICULAR_OFFSETS = [0, 15, -15, 30, -30]`.  The floating-point
straight-line coordinates derived from each pair are abstracted: the
corresponding path query is recorded as `Cmd.findPathIntermediate`. -/
def interPairs (d2 : Int) : List (Int × Int) :=
  (([60, 40, 25] : List Int).filter (fun d => decide (d * d < d2))).flatMap
    (fun d => ([0, 15, -15, 30, -30] : List Int).map (fun o => (d, o)))

/-- The intermediate-waypoint search loop: query each pair in turn,
stopping at the first result with nonempty waypoints; `p` is the most
recent path result (returned unchanged when no pair is tried). -/
def interSearch (p : PathRes) (env : WalkEnv) (cmds : List Cmd) :
    List (Int × Int) → PathRes × WalkEnv × List Cmd
  | [] => (p, env, cmds)
  | (d, o) :: rest =>
    let q := popPath env
    let cmds2 := cmds ++ [Cmd.findPathIntermediate d o]
    if q.1.waypoints.isEmpty then interSearch q.1 q.2 cmds2 rest
    else (q.1, q.2, cmds2)

/-- The waypoint indices driven by the stride loop: starting at
`min(WAYPOINT_STEP - 1, len - 1)` with `WAYPOINT_STEP = 5`, stepping by 5
while below `len`. -/
def strideIndices (len : Nat) : List Nat :=
  (List.range len).filter
    (fun i => decide (min 4 (len - 1) ≤ i) && decide ((i - min 4 (len - 1)) % 5 = 0))

/-- Outcome of the stride loop: an early `return` from `walkTo`, or
falling through (loop finished or `break` on a stuck stride) to the
last-waypoint walk. -/
inductive StrideOut where
  | terminal (r : ActionResult)
  | fellThrough
deriving Repr, DecidableEq

/-- The stride loop body of `walkTo`: for each driven waypoint index, send
a walk command, await movement, abort if the player state is lost, return
success on arrival at the goal, and break out on a stride that stopped
without arriving. -/
def strideRun (x z tol : Int) (waypoints : List (Int × Int)) (env : WalkEnv)
    (cmds : List Cmd) : List Nat → StrideOut × WalkEnv × List Cmd
  | [] => (.fellThrough, env, cmds)
  | i :: rest =>
    match waypoints.get? i with
    | none => strideRun x z tol waypoints env cmds rest
    | some wp =>
      let cmds1 := cmds ++ [Cmd.walk wp.1 wp.2]
      let m := popMove env
      let chk := popState m.2
      match chk.1 with
      | none => (.terminal ⟨false, "Lost connection during walk"⟩, chk.2, cmds1)
      | some _ =>
        if distLe (dist2 x z m.1.x m.1.z) tol then
          (.terminal ⟨true, arrivedMsg m.1.x m.1.z⟩, chk.2, cmds1)
        else if m.1.stoppedMoving && !m.1.arrived then (.fellThrough, chk.2, cmds1)
        else strideRun x z tol waypoints chk.2 cmds1 rest

/-- The fall-through exit of `walkTo` after the iteration cap: one final
`getState()` read (defaulting to the start position) decides success. -/
def walkToFinal (x z tol startX startZ : Int) (env : WalkEnv)
    (cmds : List Cmd) : ActionResult × List Cmd :=
  let st := popState env
  let f := match st.1 with
    | some p => p
    | none => (startX, startZ)
  if distLe (dist2 x z f.1 f.2) tol then (⟨true, arrivedMsg f.1 f.2⟩, cmds)
  else (⟨false, couldNotMsg x z f.1 f.2⟩, cmds)

/-- One replanning attempt of `walkTo` (the body of the
`MAX_PATH_QUERIES` loop): either an early `return` from `walkTo`
(`Sum.inl`), or fall through to the next iteration (`Sum.inr`) carrying
the updated consecutive-low-progress counter, remaining trace, and issued
commands. -/
def walkToIter (x z tol : Int) (stuckCount : Nat) (env : WalkEnv)
    (cmds : List Cmd) : (ActionResult × List Cmd) ⊕ (Nat × WalkEnv × List Cmd) :=
  let st := popState env
  match st.1 with
  | none => .inl (⟨false, "Lost player state"⟩, cmds)
  | some (cx, cz) =>
    let env1 := st.2
    let d2 := dist2 x z cx cz
    if distLe d2 tol then .inl (⟨true, arrivedMsg cx cz⟩, cmds)
    else
      let p0 := popPath env1
      let cmds1 := cmds ++ [Cmd.findPath x z 500]
      let res :=
        if p0.1.waypoints.isEmpty && !(distLe d2 40) then
          interSearch p0.1 p0.2 cmds1 (interPairs d2)
        else (p0.1, p0.2, cmds1)
      let pathResult := res.1
      let env2 := res.2.1
      let cmds2 := res.2.2
      if !pathResult.success || pathResult.waypoints.isEmpty then
        let cmds3 := cmds2 ++ [Cmd.walk x z]
        if (env2.direct.find? (fun op =>
            match op with
            | some (px, pz) => distLe (dist2 x z px pz) tol
            | none => false)).isSome
        then .inl (⟨true, arrivedMsg x z⟩, cmds3)
        else .inl (⟨false, noPathMsg x z⟩, cmds3)
      else
        match strideRun x z tol pathResult.waypoints env2 cmds2
            (strideIndices pathResult.waypoints.length) with
        | (.terminal r, _, cmds3) => .inl (r, cmds3)
        | (.fellThrough, env3, cmds3) =>
          let afterLast := match pathResult.waypoints.getLast? with
            | some lw => ((popMove env3).2, cmds3 ++ [Cmd.walk lw.1 lw.2])
            | none => (env3, cmds3)
          let env4 := afterLast.1
          let cmds4 := afterLast.2
          let aft := popState env4
          let a := match aft.1 with
            | some p => p
            | none => (cx, cz)
          let nd2 := dist2 x z a.1 a.2
          if distLe nd2 tol then .inl (⟨true, arrivedMsg a.1 a.2⟩, cmds4)
          else if progressLt5 d2 nd2 then
            if stuckCount + 1 ≥ 3 then .inl (⟨false, stuckMsg a.1 a.2 x z⟩, cmds4)
            else .inr (stuckCount + 1, aft.2, cmds4)
          else .inr (0, aft.2, cmds4)

/-- One-or-more replanning attempts of `walkTo`, with `fuel` counting the
remaining iterations of the `MAX_PATH_QUERIES = 80` loop and `stuckCount`
the consecutive low-progress attempts carried across iterations. -/
def walkToLoop (x z tol startX startZ : Int) (stuckCount : Nat) (env : WalkEnv)
    (cmds : List Cmd) : Nat → ActionResult × List Cmd
  | 0 => walkToFinal x z tol startX startZ env cmds
  | fuel + 1 =>
    match walkToIter x z tol stuckCount env cmds with
    | .inl done => done
    | .inr (sc, env2, cmds2) => walkToLoop x z tol startX startZ sc env2 cmds2 fuel

/-- `walkTo(x, z, tolerance)` from `src/sdk/actions.ts` (the source
defaults `tolerance` to 3): immediate success when already within
tolerance, otherwise up to `MAX_PATH_QUERIES = 80` replanning attempts
with long-range intermediate search, a direct-walk fallback, stride
walking, and consecutive-low-progress stuck abort. -/
def walkTo (x z tol : Int) (env : WalkEnv) : ActionResult × List Cmd :=
  let st := popState env
  match st.1 with
  | none => (⟨false, "No player state"⟩, [])
  | some (sx, sz) =>
    if distLe (dist2 x z sx sz) tol then (⟨true, alreadyMsg x z⟩, [])
    else walkToLoop x z tol sx sz 0 st.2 [] 80

/-- Claim C4: if the player position in the initial snapshot is already
within `tolerance` of the goal, `walkTo` succeeds immediately (message
`Already at (x, z)`) and issues no command at all. -/
theorem walkTo_already_there (x z tol sx sz : Int)
    (rest : List (Option (Int × Int))) (paths : List PathRes)
    (moves : List MoveResult) (direct : List (Option (Int × Int)))
    (hnear : distLe (dist2 x z sx sz) tol = true) :
    walkTo x z tol ⟨some (sx, sz) :: rest, paths, moves, direct⟩ =
      (⟨true, alreadyMsg x z⟩, []) := by
  simp [walkTo, popState, hnear]

/-- Witness for C4: start (3222, 3218), goal (3223, 3219), tolerance 3. -/
theorem walkTo_already_there_witness :
    walkTo 3223 3219 3 ⟨[some (3222, 3218)], [], [], []⟩ =
      (⟨true, alreadyMsg 3223 3219⟩, []) :=
  walkTo_already_there 3223 3219 3 3222 3218 [] [] [] [] (by decide)

/-- Commands that query the path planner (`sendFindPath`, directly or
through the intermediate-waypoint heuristic). -/
def isPathQuery : Cmd → Bool
  | .findPath _ _ _ => true
  | .findPathIntermediate _ _ => true
  | _ => false

/-- Number of path-planner queries among the issued commands. -/
def pathQueries (cmds : List Cmd) : Nat := (cmds.filter isPathQuery).length

theorem pathQueries_append (a b : List Cmd) :
    pathQueries (a ++ b) = pathQueries a + pathQueries b := by
  simp [pathQueries, List.filter_append]

theorem interPairs_length_le (d2 : Int) : (interPairs d2).length ≤ 15 := by
  have h : ∀ l : List Int,
      (l.flatMap (fun d =>
        ([0, 15, -15, 30, -30] : List Int).map (fun o => (d, o)))).length =
      5 * l.length := by
    intro l
    induction l with
    | nil => simp
    | cons a t ih =>
      rw [List.flatMap_cons, List.length_append, ih]
      simp only [List.length_map, List.length_cons, List.length_nil]
      omega
  unfold interPairs
  rw [h]
  have hf := List.length_filter_le
    (fun d : Int => decide (d * d < d2)) ([60, 40, 25] : List Int)
  simp only [List.length_cons, List.length_nil] at hf
  omega

theorem interSearch_pathQueries (prs : List (Int × Int)) :
    ∀ p env cmds, pathQueries (interSearch p env cmds prs).2.2 ≤
      pathQueries cmds + prs.length := by
  induction prs with
  | nil => intro p env cmds; simp [interSearch]
  | cons pr rest ih =>
    intro p env cmds
    obtain ⟨d, o⟩ := pr
    simp only [interSearch]
    split
    · have := ih (popPath env).1 (popPath env).2
        (cmds ++ [Cmd.findPathIntermediate d o])
      simp [pathQueries_append, pathQueries, isPathQuery] at this ⊢
      omega
    · simp [pathQueries_append, pathQueries, isPathQuery]

theorem strideRun_pathQueries (x z tol : Int) (waypoints : List (Int × Int))
    (idxs : List Nat) : ∀ env cmds,
    pathQueries (strideRun x z tol waypoints env cmds idxs).2.2 =
      pathQueries cmds := by
  induction idxs with
  | nil => intro env cmds; simp [strideRun]
  | cons i rest ih =>
    intro env cmds
    simp only [strideRun]
    split
    · exact ih env cmds
    · split
      · simp [pathQueries_append, pathQueries, isPathQuery]
      · split
        · simp [pathQueries_append, pathQueries, isPathQuery]
        · split
          · simp [pathQueries_append, pathQueries, isPathQuery]
          · rw [ih]
            simp [pathQueries_append, pathQueries, isPathQuery]

theorem walkToFinal_pathQueries (x z tol sx sz : Int) (env : WalkEnv)
    (cmds : List Cmd) :
    pathQueries (walkToFinal x z tol sx sz env cmds).2 = pathQueries cmds := by
  unfold walkToFinal
  dsimp only
  split <;> rfl

/-- The command list carried by a `walkToIter` outcome. -/
def iterCmds : (ActionResult × List Cmd) ⊕ (Nat × WalkEnv × List Cmd) → List Cmd
  | .inl (_, c) => c
  | .inr (_, _, c) => c

theorem res_pathQueries (p0 : PathRes) (env : WalkEnv) (cmds1 : List Cmd)
    (d2 : Int) (cond : Bool) :
    pathQueries (if cond then interSearch p0 env cmds1 (interPairs d2)
      else (p0, env, cmds1)).2.2 ≤ pathQueries cmds1 + 15 := by
  split
  · have h1 := interSearch_pathQueries (interPairs d2) p0 env cmds1
    have h2 := interPairs_length_le d2
    omega
  · dsimp only
    omega

theorem walkToIter_pathQueries (x z tol : Int) (sc : Nat) (env : WalkEnv)
    (cmds : List Cmd) :
    pathQueries (iterCmds (walkToIter x z tol sc env cmds)) ≤
      pathQueries cmds + 16 := by
  unfold walkToIter
  dsimp only
  rcases hst : popState env with ⟨st1, env1⟩
  dsimp only
  cases st1 with
  | none => simp [iterCmds]
  | some p =>
    obtain ⟨cx, cz⟩ := p
    dsimp only
    cases hdist : distLe (dist2 x z cx cz) tol with
    | true => simp [iterCmds]
    | false =>
      simp only [hdist, Bool.false_eq_true, if_false]
      rcases hp0 : popPath env1 with ⟨p0, env2⟩
      dsimp only
      have hres := res_pathQueries p0 env2 (cmds ++ [Cmd.findPath x z 500])
        (dist2 x z cx cz) (p0.waypoints.isEmpty && !(distLe (dist2 x z cx cz) 40))
      rcases hR : (if p0.waypoints.isEmpty && !(distLe (dist2 x z cx cz) 40) then
          interSearch p0 env2 (cmds ++ [Cmd.findPath x z 500])
            (interPairs (dist2 x z cx cz))
        else (p0, env2, cmds ++ [Cmd.findPath x z 500])) with ⟨pathResult, env3, cmds2⟩
      rw [hR] at hres
      dsimp only at hres ⊢
      rw [pathQueries_append] at hres
      have hone : pathQueries [Cmd.findPath x z 500] = 1 := by
        simp [pathQueries, isPathQuery]
      rw [hone] at hres
      cases hcond : (!pathResult.success || pathResult.waypoints.isEmpty) with
      | true =>
        simp only [hcond, if_true]
        split <;> · simp only [iterCmds, pathQueries_append]
                    have : pathQueries [Cmd.walk x z] = 0 := by
                      simp [pathQueries, isPathQuery]
                    omega
      | false =>
        simp only [hcond, Bool.false_eq_true, if_false]
        rcases hsr : strideRun x z tol pathResult.waypoints env3 cmds2
            (strideIndices pathResult.waypoints.length) with ⟨out, env4, cmds3⟩
        have hs := strideRun_pathQueries x z tol pathResult.waypoints
          (strideIndices pathResult.waypoints.length) env3 cmds2
        rw [hsr] at hs
        dsimp only at hs
        cases out with
        | terminal r => simp only [iterCmds]; omega
        | fellThrough =>
          dsimp only
          cases hLast : pathResult.waypoints.getLast? with
          | none =>
            dsimp only
            rcases haft : popState env4 with ⟨aft1, env5⟩
            dsimp only
            split <;> try (simp only [iterCmds]; omega)
            split <;> try (simp only [iterCmds]; omega)
            split <;> simp only [iterCmds] <;> omega
          | some lw =>
            dsimp only
            rcases haft : popState (popMove env4).2 with ⟨aft1, env5⟩
            dsimp only
            have hzero : pathQueries (cmds3 ++ [Cmd.walk lw.1 lw.2]) =
                pathQueries cmds3 := by
              rw [pathQueries_append]
              simp [pathQueries, isPathQuery]
            split <;> try (simp only [iterCmds]; omega)
            split <;> try (simp only [iterCmds, hzero]; omega)
            split <;> simp only [iterCmds, hzero] <;> omega

theorem walkToLoop_pathQueries (x z tol sx sz : Int) :
    ∀ fuel (sc : Nat) (env : WalkEnv) (cmds : List Cmd),
    pathQueries (walkToLoop x z tol sx sz sc env cmds fuel).2 ≤
      pathQueries cmds + 16 * fuel := by
  intro fuel
  induction fuel with
  | zero =>
    intro sc env cmds
    simp [walkToLoop, walkToFinal_pathQueries]
  | succ fuel ih =>
    intro sc env cmds
    have hiter := walkToIter_pathQueries x z tol sc env cmds
    simp only [walkToLoop]
    cases hit : walkToIter x z tol sc env cmds with
    | inl done =>
      obtain ⟨r, c⟩ := done
      rw [hit] at hiter
      simp only [iterCmds] at hiter
      dsimp only
      omega
    | inr next =>
      obtain ⟨sc2, env2, cmds2⟩ := next
      rw [hit] at hiter
      simp only [iterCmds] at hiter
      dsimp only
      have := ih sc2 env2 cmds2
      omega

theorem walkTo_pathQueries (x z tol : Int) (env : WalkEnv) :
    pathQueries (walkTo x z tol env).2 ≤ 1280 := by
  unfold walkTo
  dsimp only
  rcases hst : popState env with ⟨st1, env1⟩
  dsimp only
  cases st1 with
  | none => simp [pathQueries]
  | some p =>
    obtain ⟨sx, sz⟩ := p
    dsimp only
    split
    · simp [pathQueries]
    · have h := walkToLoop_pathQueries x z tol sx sz 80 0 env1 []
      have h0 : pathQueries ([] : List Cmd) = 0 := rfl
      omega

/-- One full replanning attempt of `walkTo` on an explicit trace: the
player is at `(cx, cz)` (not within tolerance), the path query returns a
single waypoint `w`, the stride does not arrive (result `m0`), the
last-waypoint walk result `m1` is discarded, and the attempt ends at
`(ax, az)` (still not within tolerance).  The attempt issues exactly one
path query and two walk commands, and either aborts stuck (third
consecutive low-progress attempt), increments the consecutive counter, or
resets it on real progress. -/
theorem walkToIter_attempt (x z tol cx cz qx qz ax az : Int) (w : Int × Int)
    (sc : Nat) (srest : List (Option (Int × Int))) (prest : List PathRes)
    (mrest : List MoveResult) (direct : List (Option (Int × Int)))
    (m0 m1 : MoveResult) (cmds : List Cmd)
    (hfar : distLe (dist2 x z cx cz) tol = false)
    (hm0 : distLe (dist2 x z m0.x m0.z) tol = false)
    (haz : distLe (dist2 x z ax az) tol = false) :
    walkToIter x z tol sc
      ⟨some (cx, cz) :: some (qx, qz) :: some (ax, az) :: srest,
        ⟨true, [w]⟩ :: prest, m0 :: m1 :: mrest, direct⟩ cmds =
      (if progressLt5 (dist2 x z cx cz) (dist2 x z ax az) then
        if sc + 1 ≥ 3 then
          .inl (⟨false, stuckMsg ax az x z⟩,
            cmds ++ [Cmd.findPath x z 500, Cmd.walk w.1 w.2, Cmd.walk w.1 w.2])
        else .inr (sc + 1, ⟨srest, prest, mrest, direct⟩,
          cmds ++ [Cmd.findPath x z 500, Cmd.walk w.1 w.2, Cmd.walk w.1 w.2])
      else .inr (0, ⟨srest, prest, mrest, direct⟩,
        cmds ++ [Cmd.findPath x z 500, Cmd.walk w.1 w.2, Cmd.walk w.1 w.2])) := by
  have hidx : strideIndices 1 = [0] := by decide
  cases hb : (m0.stoppedMoving && !m0.arrived) <;>
    simp [walkToIter, popState, popPath, popMove, strideRun, hidx,
      interSearch, hfar, hm0, haz, hb, List.append_assoc]

/-- Claim C6: `walkTo` always terminates — it is a total function whose
replanning loop is hard-capped at `MAX_PATH_QUERIES = 80` iterations, so
(first conjunct) a whole call issues at most `80 * 16 = 1280` path queries
(one main query plus at most 15 intermediate-search queries per
iteration).  Whole-path progress is tracked across replanning attempts
(conjuncts 2-4, each about one full attempt that ends short of the goal):
when the attempt improves the distance-to-goal by less than the 5-tile
minimum-progress threshold and two consecutive such attempts already
happened (`stuckCount = 2`), the loop aborts with a failure result whose
message reports the last known position (`Stuck at (ax, az) - cannot
reach (x, z)`); with fewer prior low-progress attempts the consecutive
counter increments; and an attempt that makes at least 5 tiles of
progress resets the counter to 0. -/
theorem walkTo_bounded_replanning_stuck_abort :
    (∀ x z tol env, pathQueries (walkTo x z tol env).2 ≤ 1280) ∧
    (∀ x z tol sx sz cx cz qx qz ax az : Int, ∀ w : Int × Int, ∀ fuel : Nat,
      ∀ srest : List (Option (Int × Int)), ∀ prest : List PathRes,
      ∀ mrest : List MoveResult, ∀ direct : List (Option (Int × Int)),
      ∀ m0 m1 : MoveResult, ∀ cmds : List Cmd,
      distLe (dist2 x z cx cz) tol = false →
      distLe (dist2 x z m0.x m0.z) tol = false →
      distLe (dist2 x z ax az) tol = false →
      progressLt5 (dist2 x z cx cz) (dist2 x z ax az) = true →
      walkToLoop x z tol sx sz 2
        ⟨some (cx, cz) :: some (qx, qz) :: some (ax, az) :: srest,
          ⟨true, [w]⟩ :: prest, m0 :: m1 :: mrest, direct⟩ cmds (fuel + 1) =
        (⟨false, stuckMsg ax az x z⟩,
          cmds ++ [Cmd.findPath x z 500, Cmd.walk w.1 w.2, Cmd.walk w.1 w.2])) ∧
    (∀ x z tol sx sz cx cz qx qz ax az : Int, ∀ w : Int × Int, ∀ fuel sc : Nat,
      ∀ srest : List (Option (Int × Int)), ∀ prest : List PathRes,
      ∀ mrest : List MoveResult, ∀ direct : List (Option (Int × Int)),
      ∀ m0 m1 : MoveResult, ∀ cmds : List Cmd,
      sc ≤ 1 →
      distLe (dist2 x z cx cz) tol = false →
      distLe (dist2 x z m0.x m0.z) tol = false →
      distLe (dist2 x z ax az) tol = false →
      progressLt5 (dist2 x z cx cz) (dist2 x z ax az) = true →
      walkToLoop x z tol sx sz sc
        ⟨some (cx, cz) :: some (qx, qz) :: some (ax, az) :: srest,
          ⟨true, [w]⟩ :: prest, m0 :: m1 :: mrest, direct⟩ cmds (fuel + 1) =
        walkToLoop x z tol sx sz (sc + 1) ⟨srest, prest, mrest, direct⟩
          (cmds ++ [Cmd.findPath x z 500, Cmd.walk w.1 w.2, Cmd.walk w.1 w.2])
          fuel) ∧
    (∀ x z tol sx sz cx cz qx qz ax az : Int, ∀ w : Int × Int, ∀ fuel sc : Nat,
      ∀ srest : List (Option (Int × Int)), ∀ prest : List PathRes,
      ∀ mrest : List MoveResult, ∀ direct : List (Option (Int × Int)),
      ∀ m0 m1 : MoveResult, ∀ cmds : List Cmd,
      distLe (dist2 x z cx cz) tol = false →
      distLe (dist2 x z m0.x m0.z) tol = false →
      distLe (dist2 x z ax az) tol = false →
      progressLt5 (dist2 x z cx cz) (dist2 x z ax az) = false →
      walkToLoop x z tol sx sz sc
        ⟨some (cx, cz) :: some (qx, qz) :: some (ax, az) :: srest,
          ⟨true, [w]⟩ :: prest, m0 :: m1 :: mrest, direct⟩ cmds (fuel + 1) =
        walkToLoop x z tol sx sz 0 ⟨srest, prest, mrest, direct⟩
          (cmds ++ [Cmd.findPath x z 500, Cmd.walk w.1 w.2, Cmd.walk w.1 w.2])
          fuel) := by
  refine ⟨walkTo_pathQueries, ?_, ?_, ?_⟩
  · intro x z tol sx sz cx cz qx qz ax az w fuel srest prest mrest direct
      m0 m1 cmds h1 h2 h3 hprog
    simp only [walkToLoop]
    rw [walkToIter_attempt x z tol cx cz qx qz ax az w 2 srest prest mrest
      direct m0 m1 cmds h1 h2 h3]
    simp [hprog]
  · intro x z tol sx sz cx cz qx qz ax az w fuel sc srest prest mrest direct
      m0 m1 cmds hsc h1 h2 h3 hprog
    simp only [walkToLoop]
    rw [walkToIter_attempt x z tol cx cz qx qz ax az w sc srest prest mrest
      direct m0 m1 cmds h1 h2 h3]
    have hlt : ¬ sc + 1 ≥ 3 := by omega
    simp [hprog, hlt]
  · intro x z tol sx sz cx cz qx qz ax az w fuel sc srest prest mrest direct
      m0 m1 cmds h1 h2 h3 hprog
    simp only [walkToLoop]
    rw [walkToIter_attempt x z tol cx cz qx qz ax az w sc srest prest mrest
      direct m0 m1 cmds h1 h2 h3]
    simp [hprog]

/-- Witness for C6: a concrete third-consecutive low-progress attempt.
Goal (100, 0) with tolerance 3 from (0, 0); the path query returns the
single waypoint (50, 0); the stride ends stuck at (10, 0); the attempt
ends at (4, 0), i.e. distance 96 to the goal — progress 4 < 5 — with
`stuckCount = 2`, so `walkTo` aborts reporting the last known position,
and the whole call issued at most 1280 path queries. -/
theorem walkTo_bounded_replanning_stuck_abort_witness :
    walkToLoop 100 0 3 0 0 2
      ⟨[some (0, 0), some (10, 0), some (4, 0)],
        [⟨true, [(50, 0)]⟩], [⟨false, true, 10, 0⟩, ⟨false, true, 10, 0⟩], []⟩
      [] 1 =
      (⟨false, stuckMsg 4 0 100 0⟩,
        [Cmd.findPath 100 0 500, Cmd.walk 50 0, Cmd.walk 50 0]) ∧
    pathQueries (walkTo 100 0 3
      ⟨[some (0, 0)], [], [], []⟩).2 ≤ 1280 := by
  constructor
  · have h := walkTo_bounded_replanning_stuck_abort.2.1 100 0 3 0 0 0 0 10 0 4 0
      (50, 0) 0 [] [] [] [] ⟨false, true, 10, 0⟩ ⟨false, true, 10, 0⟩ []
      (by decide) (by decide) (by decide) (by decide)
    simpa using h
  · exact walkTo_bounded_replanning_stuck_abort.1 100 0 3 _

/-- The local-validation result of a primitive send (`{success,
message}`); never a remote completion signal. -/
structure SendRes where
  success : Bool
  message : String
deriving Repr, DecidableEq

/-- Modelled from the spec: `findNearbyNpc(pattern)` of the EntityResolver
(`sdk/index.ts` is not part of the provided sources).  Spec section 4.4:
query the live NPC collection with the pattern and return the
nearest/first match, or null.  This model returns the first match in
snapshot order. -/
def findNearbyNpc (s : Option Snapshot) (p : Pat) : Option NearbyNpc :=
  match s with
  | none => none
  | some st => st.nearbyNpcs.find? (fun n => p.test n.name)

/-- Modelled from the spec: `findNearbyLoc(pattern)`, as `findNearbyNpc`
but over the nearby-location collection. -/
def findNearbyLoc (s : Option Snapshot) (p : Pat) : Option NearbyLoc :=
  match s with
  | none => none
  | some st => st.nearbyLocs.find? (fun l => p.test l.name)

/-- Modelled from the spec: `findInventoryItem(pattern)`, as
`findNearbyNpc` but over the inventory. -/
def findInventoryItem (s : Option Snapshot) (p : Pat) : Option InvItem :=
  match s with
  | none => none
  | some st => st.inventory.find? (fun i => p.test i.name)

/-- Modelled from the spec: `findEquipmentItem(pattern)`, as
`findNearbyNpc` but over the equipped items. -/
def findEquipmentItem (s : Option Snapshot) (p : Pat) : Option InvItem :=
  match s with
  | none => none
  | some st => st.equipment.find? (fun i => p.test i.name)

/-- Modelled from the spec: `getSkill(name)`: the skill entry with the
given name in the current snapshot. -/
def getSkill (s : Option Snapshot) (name : String) : Option SkillState :=
  match s with
  | none => none
  | some st => st.skills.find? (fun sk => sk.name == name)

/-- `resolveNpc` from `src/sdk/actions.ts`: an already-resolved handle is
returned unchanged; a pattern is resolved against the current snapshot. -/
def resolveNpc (t : Target NearbyNpc) (s : Option Snapshot) : Option NearbyNpc :=
  match t with
  | .handle h => some h
  | .pattern p => findNearbyNpc s p

/-- `resolveLocation` from `src/sdk/actions.ts`: a missing target resolves
the default pattern; a handle is returned unchanged. -/
def resolveLocation (t : Option (Target NearbyLoc)) (dflt : Pat)
    (s : Option Snapshot) : Option NearbyLoc :=
  match t with
  | none => findNearbyLoc s dflt
  | some (.handle h) => some h
  | some (.pattern p) => findNearbyLoc s p

/-- `resolveInventoryItem` from `src/sdk/actions.ts`. -/
def resolveInventoryItem (t : Option (Target InvItem)) (dflt : Pat)
    (s : Option Snapshot) : Option InvItem :=
  match t with
  | none => findInventoryItem s dflt
  | some (.handle h) => some h
  | some (.pattern p) => findInventoryItem s p

/-- `resolveShopItem` from `src/sdk/actions.ts`: a handle is re-looked-up
by id in the given item list; a pattern matches by name. -/
def resolveShopItem (t : Target ShopItem) (items : List ShopItem) :
    Option ShopItem :=
  match t with
  | .handle h => items.find? (fun i => i.id == h.id)
  | .pattern p => items.find? (fun i => p.test i.name)

/-- Chat text contains a cannot-reach phrase (after lower-casing). -/
def hasCantReach (t : String) : Bool :=
  containsSub (lc t) cantReachStr || containsSub (lc t) "cannot reach"

/-- Chat text reports the target already being fought. -/
def hasInCombatMsg (t : String) : Bool :=
  containsSub (lc t) "someone else is fighting" ||
    containsSub (lc t) "already under attack"

/-- Chat text reports a full inventory. -/
def hasInvFullMsg (t : String) : Bool :=
  containsSub (lc t) "inventory" && containsSub (lc t) "full"

/-- Chat text reports missing runes. -/
def hasNotEnoughMsg (t : String) : Bool :=
  containsSub (lc t) "do not have enough" ||
    containsSub (lc t) dontHaveEnoughStr

/-- Chat text reports a shop sale rejection (any form). -/
def hasCantSellMsg (t : String) : Bool := containsSub (lc t) cantSellStr

/-- Chat text reports the item not being buyable by this shop. -/
def hasCantSellHereMsg (t : String) : Bool := containsSub (lc t) cantSellHereStr

/-- Chat text reports the item not being buyable by any shop. -/
def hasCantSellAnyMsg (t : String) : Bool := containsSub (lc t) cantSellAnyStr

/-- `{success, message, reason?}` as returned by `attackNpc`. -/
structure AttackResult where
  success : Bool
  message : String
  reason : Option String := none
deriving Repr, DecidableEq

/-- The composite wait predicate of `attackNpc`: a tick-gated failure
message, the target NPC despawning, or the target within melee range. -/
def attackPred (npcIndex : Nat) (startTick : Int) (s : Snapshot) : Bool :=
  s.gameMessages.any (fun m =>
    decide (m.tick > startTick) && (hasCantReach m.text || hasInCombatMsg m.text)) ||
  (match s.nearbyNpcs.find? (fun n => n.index == npcIndex) with
   | none => true
   | some n => decide (n.distance ≤ 2))

/-- The post-wait message scan of `attackNpc`, in message-list order:
the first message with tick strictly above `startTick` matching a failure
phrase decides the failure reason. -/
def classifyAttackMsgs (startTick : Int) : List ChatMsg → Option String
  | [] => none
  | m :: rest =>
    if m.tick > startTick then
      if hasCantReach m.text then some "out_of_reach"
      else if hasInCombatMsg m.text then some "already_in_combat"
      else classifyAttackMsgs startTick rest
    else classifyAttackMsgs startTick rest

/-- `attackNpc` from `src/sdk/actions.ts`: resolve the target, require an
attack option, record `startTick`, send one interact command, and wait for
either a tick-gated failure message, the NPC despawning, or the NPC in
range; classify the observed messages afterwards. -/
def attackNpc (target : Target NearbyNpc) (s0 : Option Snapshot)
    (ack : SendRes) (stream : List Snapshot) : AttackResult × List Cmd :=
  match resolveNpc target s0 with
  | none => (⟨false, "NPC not found", some "npc_not_found"⟩, [])
  | some npc =>
    match npc.optionsWithIndex.find?
        (fun o => (Pat.containsAnyCI ["attack"]).test o.text) with
    | none => (⟨false, "No attack option on " ++ npc.name,
        some "no_attack_option"⟩, [])
    | some attackOpt =>
      let startTick := match s0 with
        | some s => s.tick
        | none => 0
      let cmds := [Cmd.interactNpc npc.index attackOpt.opIndex]
      if !ack.success then (⟨false, ack.message, none⟩, cmds)
      else
        match waitForCondition (attackPred npc.index startTick) stream with
        | none => (⟨false, "Timeout waiting to attack " ++ npc.name,
            some "timeout"⟩, cmds)
        | some fs =>
          match classifyAttackMsgs startTick fs.gameMessages with
          | some r =>
            if r == "out_of_reach" then
              (⟨false, "Cannot reach " ++ npc.name ++ " - obstacle in the way",
                some "out_of_reach"⟩, cmds)
            else
              (⟨false, npc.name ++ " is already in combat",
                some "already_in_combat"⟩, cmds)
          | none => (⟨true, "Attacking " ++ npc.name, none⟩, cmds)

theorem classifyAttackMsgs_out_of_reach (startTick : Int) :
    ∀ msgs, classifyAttackMsgs startTick msgs = some "out_of_reach" →
      ∃ m, m ∈ msgs ∧ startTick < m.tick ∧ hasCantReach m.text = true := by
  intro msgs
  induction msgs with
  | nil => intro h; simp [classifyAttackMsgs] at h
  | cons m rest ih =>
    intro h
    simp only [classifyAttackMsgs] at h
    by_cases ht : m.tick > startTick
    · simp only [if_pos ht] at h
      cases hc : hasCantReach m.text with
      | true => exact ⟨m, by simp, ht, hc⟩
      | false =>
        rw [hc] at h
        simp only [Bool.false_eq_true, if_false] at h
        cases hcb : hasInCombatMsg m.text with
        | true => rw [hcb] at h; simp at h
        | false =>
          rw [hcb] at h
          simp only [Bool.false_eq_true, if_false] at h
          obtain ⟨m2, hm2, h1, h2⟩ := ih h
          exact ⟨m2, by simp [hm2], h1, h2⟩
    · simp only [if_neg ht] at h
      obtain ⟨m2, hm2, h1, h2⟩ := ih h
      exact ⟨m2, by simp [hm2], h1, h2⟩

/-- Claim C3: `attackNpc` records `startTick` just before sending the
attack command and classifies an unreachable-target chat message as
`out_of_reach` only through the strict gate `tick > startTick`.  First
conjunct: for every polling trace whose observed snapshot carries a
cannot-reach message with tick strictly greater than `startTick`, the
result is failure with reason `out_of_reach`.  Second conjunct: for every
trace in which every cannot-reach message has tick at most `startTick`
(in particular the identical message stamped at or before `startTick`),
the result reason is never `out_of_reach`. -/
theorem attackNpc_tick_gated_out_of_reach :
    (∀ (npc : NearbyNpc) (opt : OptionEntry) (st0 snap : Snapshot)
      (pre : List Snapshot) (ack : SendRes) (tick : Int) (text : String),
      npc.optionsWithIndex.find?
        (fun o => (Pat.containsAnyCI ["attack"]).test o.text) = some opt →
      ack.success = true →
      (∀ s ∈ pre, attackPred npc.index st0.tick s = false) →
      snap.gameMessages = [⟨tick, text⟩] →
      hasCantReach text = true →
      st0.tick < tick →
      (attackNpc (.handle npc) (some st0) ack (pre ++ [snap])).1 =
        ⟨false, "Cannot reach " ++ npc.name ++ " - obstacle in the way",
          some "out_of_reach"⟩) ∧
    (∀ (npc : NearbyNpc) (st0 : Snapshot) (ack : SendRes)
      (stream : List Snapshot),
      (∀ s ∈ stream, ∀ m ∈ s.gameMessages,
        hasCantReach m.text = true → m.tick ≤ st0.tick) →
      (attackNpc (.handle npc) (some st0) ack stream).1.reason ≠
        some "out_of_reach") := by
  constructor
  · intro npc opt st0 snap pre ack tick text hopt hack hpre hmsgs hcr htick
    have hpredsnap : attackPred npc.index st0.tick snap = true := by
      simp [attackPred, hmsgs, hcr, htick]
    have hwait : waitForCondition (attackPred npc.index st0.tick)
        (pre ++ [snap]) = some snap := by
      unfold waitForCondition
      rw [List.find?_append]
      have hnone : pre.find? (attackPred npc.index st0.tick) = none :=
        List.find?_eq_none.mpr (fun x hx => by simp [hpre x hx])
      rw [hnone]
      simp [List.find?, hpredsnap]
    have hclass : classifyAttackMsgs st0.tick snap.gameMessages =
        some "out_of_reach" := by
      simp [classifyAttackMsgs, hmsgs, hcr, htick]
    simp only [attackNpc, resolveNpc, hopt, hack, hwait, hclass]
    simp
  · intro npc st0 ack stream hall
    simp only [attackNpc, resolveNpc]
    cases hopt : npc.optionsWithIndex.find?
        (fun o => (Pat.containsAnyCI ["attack"]).test o.text) with
    | none => simp
    | some opt =>
      dsimp only
      cases hack : ack.success with
      | false => simp
      | true =>
        simp only [Bool.not_true, Bool.false_eq_true, if_false]
        cases hw : waitForCondition (attackPred npc.index st0.tick) stream with
        | none => simp
        | some fs =>
          have hfs : fs ∈ stream := List.mem_of_find?_eq_some hw
          dsimp only
          cases hc : classifyAttackMsgs st0.tick fs.gameMessages with
          | none => simp
          | some r =>
            dsimp only
            by_cases hr : r = "out_of_reach"
            · exfalso
              subst hr
              obtain ⟨m, hm, h1, h2⟩ :=
                classifyAttackMsgs_out_of_reach st0.tick fs.gameMessages hc
              have := hall fs hfs m hm h2
              omega
            · simp [hr]

/-- Witness for C3: goblin at index 7 with an Attack option; `startTick` is
12; the observed snapshot carries the single message
`You cannot reach that!` at tick 13; the attack is classified
`out_of_reach`. -/
theorem attackNpc_tick_gated_out_of_reach_witness :
    (attackNpc
      (.handle ⟨7, "Goblin", 5, [⟨"Attack", 2⟩]⟩)
      (some ⟨12, some (0, 0), [], [], [], [], [], [],
        ⟨false, "", [], []⟩, false, ⟨false, []⟩⟩)
      ⟨true, "ok"⟩
      [⟨13, some (0, 0), [], [], [], [⟨13, "You cannot reach that!"⟩], [], [],
        ⟨false, "", [], []⟩, false, ⟨false, []⟩⟩]).1 =
      ⟨false, "Cannot reach Goblin - obstacle in the way",
        some "out_of_reach"⟩ := by
  have h := attackNpc_tick_gated_out_of_reach.1
    ⟨7, "Goblin", 5, [⟨"Attack", 2⟩]⟩ ⟨"Attack", 2⟩
    ⟨12, some (0, 0), [], [], [], [], [], [], ⟨false, "", [], []⟩, false,
      ⟨false, []⟩⟩
    ⟨13, some (0, 0), [], [], [], [⟨13, "You cannot reach that!"⟩], [], [],
      ⟨false, "", [], []⟩, false, ⟨false, []⟩⟩
    [] ⟨true, "ok"⟩ 13 "You cannot reach that!"
    (by decide) rfl (by simp) rfl (by decide) (by decide)
  simpa using h

/-- Per-id inventory quantity:
`inventory.filter(i => i.id === id).reduce((sum, i) => sum + i.count, 0)`. -/
def countById (inv : List InvItem) (id : Nat) : Int :=
  ((inv.filter (fun i => i.id == id)).map (fun i => i.count)).sum

/-- Per-id quantity over shop-interface item stacks (same reduce). -/
def shopCountById (items : List ShopItem) (id : Nat) : Int :=
  ((items.filter (fun i => i.id == id)).map (fun i => i.count)).sum

/-- `{success, message, reason?, amountDeposited?}` of `depositItem`. -/
structure BankDepositResult where
  success : Bool
  message : String
  reason : Option String := none
  amountDeposited : Option Int := none
deriving Repr, DecidableEq

/-- `{success, message, reason?, item?}` of `withdrawItem`. -/
structure BankWithdrawResult where
  success : Bool
  message : String
  reason : Option String := none
  item : Option InvItem := none
deriving Repr, DecidableEq

/-- `depositItem(target, amount = -1)` from `src/sdk/actions.ts`: require
the bank interface open, resolve the inventory item, measure the per-id
count before, send one deposit command (whose local acknowledgement `ack`
the source never reads), wait until the per-id count drops below the
before-count, and report the before/after difference as the deposited
amount (the after-count comes from a fresh `getState()` read,
`finalRead`; a missing read counts as 0). -/
def depositItem (target : Target InvItem) (amount : Int) (s0 : Option Snapshot)
    (_ack : SendRes) (stream : List Snapshot) (finalRead : Option Snapshot) :
    BankDepositResult × List Cmd :=
  match s0 with
  | none => (⟨false, "Bank is not open", some "bank_not_open", none⟩, [])
  | some st =>
    if !st.interfaceOpen then
      (⟨false, "Bank is not open", some "bank_not_open", none⟩, [])
    else
      match resolveInventoryItem (some target) .wildcard (some st) with
      | none =>
        (⟨false, "Item not found in inventory", some "item_not_found", none⟩, [])
      | some item =>
        let countBefore := countById st.inventory item.id
        let cmds := [Cmd.bankDeposit item.slot amount]
        match waitForCondition
            (fun s => decide (countById s.inventory item.id < countBefore))
            stream with
        | none =>
          (⟨false, "Timeout waiting for " ++ item.name ++ " to be deposited",
            some "timeout", none⟩, cmds)
        | some _ =>
          let countAfter := match finalRead with
            | some fs => countById fs.inventory item.id
            | none => 0
          (⟨true,
            "Deposited " ++ item.name ++ " x" ++ toString (countBefore - countAfter),
            none, some (countBefore - countAfter)⟩, cmds)

/-- `withdrawItem(bankSlot, amount = 1)` from `src/sdk/actions.ts`. -/
def withdrawItem (bankSlot : Nat) (amount : Int) (s0 : Option Snapshot)
    (_ack : SendRes) (stream : List Snapshot) (finalRead : Option Snapshot) :
    BankWithdrawResult × List Cmd :=
  match s0 with
  | none => (⟨false, "Bank is not open", some "bank_not_open", none⟩, [])
  | some st =>
    if !st.interfaceOpen then
      (⟨false, "Bank is not open", some "bank_not_open", none⟩, [])
    else
      let invCountBefore := st.inventory.length
      let cmds := [Cmd.bankWithdraw bankSlot amount]
      match waitForCondition (fun s =>
          decide (s.inventory.length > invCountBefore) ||
          s.inventory.any (fun i =>
            match st.inventory.find? (fun bi => bi.slot == i.slot) with
            | some bi => decide (i.count > bi.count)
            | none => false)) stream with
      | none =>
        (⟨false, "Timeout waiting for item to be withdrawn",
          some "timeout", none⟩, cmds)
      | some _ =>
        let finalInv := match finalRead with
          | some fs => fs.inventory
          | none => []
        let newItem := finalInv.find? (fun i =>
          match st.inventory.find? (fun bi => bi.slot == i.slot) with
          | some bi => decide (i.count > bi.count)
          | none => true)
        (⟨true, "Withdrew item from bank slot " ++ toString bankSlot,
          none, newItem⟩, cmds)

/-- The sell quantity argument: a number or the string `all`. -/
inductive SellAmount where
  | num (n : Int)
  | all
deriving Repr, DecidableEq

/-- `{success, message, amountSold?, rejected?}` of `sellToShop`. -/
structure ShopSellResult where
  success : Bool
  message : String
  amountSold : Option Int := none
  rejected : Option Bool := none
deriving Repr, DecidableEq

/-- One sell-all batch worth of observation trace: the `getState()` read
opening the batch, the polling trace of the batch `waitForCondition`, and
the local acknowledgement of the batch `sendShopSell`. -/
structure SellIter where
  state : Option Snapshot
  waitStream : List Snapshot
  sendOk : Bool
deriving Repr, DecidableEq

/-- The wait predicate shared by `sellToShop` and its sell-all loop: a
tick-gated rejection message, or the per-id player-side count dropping
below the before-count. -/
def sellPred (id : Nat) (startTick : Int) (before : Int) (s : Snapshot) : Bool :=
  s.gameMessages.any (fun m =>
    decide (m.tick > startTick) && hasCantSellMsg m.text) ||
  decide (shopCountById s.shop.playerItems id < before)

/-- The post-wait rejection scan of the sell-all loop, in message-list
order: `some true` for the this-shop rejection, `some false` for the
generic rejection. -/
def classifySellMsgs (startTick : Int) : List ChatMsg → Option Bool
  | [] => none
  | m :: rest =>
    if m.tick > startTick then
      if hasCantSellHereMsg m.text then some true
      else if hasCantSellMsg m.text then some false
      else classifySellMsgs startTick rest
    else classifySellMsgs startTick rest

/-- The three-way post-wait rejection scan of numeric `sellToShop`:
0 = not buyable here, 1 = not buyable anywhere, 2 = not tradeable. -/
def classifySellMsgs3 (startTick : Int) : List ChatMsg → Option Nat
  | [] => none
  | m :: rest =>
    if m.tick > startTick then
      if hasCantSellHereMsg m.text then some 0
      else if hasCantSellAnyMsg m.text then some 1
      else if hasCantSellMsg m.text then some 2
      else classifySellMsgs3 startTick rest
    else classifySellMsgs3 startTick rest

/-- Message fragment `Shop doesn't buy `. -/
def shopDoesntBuyStr : String := "Shop doesn" ++ String.singleton apos ++ "t buy "

/-- The post-loop return of the sell-all loop: failure when nothing was
sold, otherwise success with the accumulated amount. -/
def sellAllFinish (name : String) (totalSold : Int) : ShopSellResult :=
  if totalSold == 0 then ⟨false, "Failed to sell any " ++ name, none, none⟩
  else ⟨true, "Sold " ++ name ++ " x" ++ toString totalSold, some totalSold, none⟩

/-- The per-batch delta accounting of the sell-all loop: accumulate the
actual before/after difference; a batch with zero progress breaks out of
the loop (`Sum.inl`), otherwise the loop continues with the new total
(`Sum.inr`). -/
def sellAllDelta (name : String) (totalSold totalCountBefore totalCountAfter : Int) :
    ShopSellResult ⊕ Int :=
  let soldThisRound := totalCountBefore - totalCountAfter
  let totalSold2 := totalSold + soldThisRound
  if soldThisRound == 0 then .inl (sellAllFinish name totalSold2)
  else .inr totalSold2

/-- The `while (true)` loop of `sellAllToShop` from `src/sdk/actions.ts`,
consuming one `SellIter` per batch (an exhausted trace reads as the shop
no longer being open): re-read the current stack, sell
`min(10, currentItem.count)` — the fixed per-click cap — wait for a
rejection message or a count drop, classify rejections as terminal
results carrying the amount sold so far, and otherwise accumulate the
actual delta, breaking on zero progress. -/
def sellAllLoop (sellItem : ShopItem) (startTick : Int) :
    List SellIter → Int → List Cmd → ShopSellResult × List Cmd
  | [], totalSold, cmds => (sellAllFinish sellItem.name totalSold, cmds)
  | e :: rest, totalSold, cmds =>
    match e.state with
    | none => (sellAllFinish sellItem.name totalSold, cmds)
    | some st =>
      if !st.shop.isOpen then (sellAllFinish sellItem.name totalSold, cmds)
      else
        match st.shop.playerItems.find? (fun i => i.id == sellItem.id) with
        | none => (sellAllFinish sellItem.name totalSold, cmds)
        | some currentItem =>
          if currentItem.count == 0 then
            (sellAllFinish sellItem.name totalSold, cmds)
          else
            let totalCountBefore := shopCountById st.shop.playerItems sellItem.id
            let sellAmount := min 10 currentItem.count
            let cmds1 := cmds ++ [Cmd.shopSell currentItem.slot sellAmount]
            if !e.sendOk then (sellAllFinish sellItem.name totalSold, cmds1)
            else
              match waitForCondition
                  (sellPred sellItem.id startTick totalCountBefore)
                  e.waitStream with
              | none => (sellAllFinish sellItem.name totalSold, cmds1)
              | some fs =>
                match classifySellMsgs startTick fs.gameMessages with
                | some true =>
                  (⟨decide (totalSold > 0),
                    (if totalSold > 0 then
                      "Sold " ++ sellItem.name ++ " x" ++ toString totalSold ++
                        ", then shop stopped buying"
                    else shopDoesntBuyStr ++ sellItem.name),
                    some totalSold, some true⟩, cmds1)
                | some false =>
                  (⟨false, sellItem.name ++ " cannot be sold",
                    some totalSold, some true⟩, cmds1)
                | none =>
                  match sellAllDelta sellItem.name totalSold totalCountBefore
                      (shopCountById fs.shop.playerItems sellItem.id) with
                  | .inl r => (r, cmds1)
                  | .inr totalSold2 =>
                    sellAllLoop sellItem startTick rest totalSold2 cmds1

/-- `sellAllToShop(sellItem, startTick)` from `src/sdk/actions.ts`. -/
def sellAllToShop (sellItem : ShopItem) (startTick : Int)
    (env : List SellIter) : ShopSellResult × List Cmd :=
  sellAllLoop sellItem startTick env 0 []

/-- `sellToShop(target, amount = 1)` from `src/sdk/actions.ts`: require an
open shop, resolve the item among the player-side stacks, and either
delegate to the sell-all loop or clamp the numeric amount into
`{1, 5, 10}` (anything else becomes 1) before sending a single sell
command, then wait and classify as in the sell-all loop but with the
three-way rejection sub-typing. -/
def sellToShop (target : Target ShopItem) (amount : SellAmount)
    (s0 : Option Snapshot) (ack : SendRes) (stream : List Snapshot)
    (allEnv : List SellIter) : ShopSellResult × List Cmd :=
  match s0 with
  | none => (⟨false, "Shop is not open", none, none⟩, [])
  | some st =>
    if !st.shop.isOpen then (⟨false, "Shop is not open", none, none⟩, [])
    else
      match resolveShopItem target st.shop.playerItems with
      | none => (⟨false, "Item not found to sell", none, none⟩, [])
      | some sellItem =>
        let startTick := st.tick
        match amount with
        | .all => sellAllToShop sellItem startTick allEnv
        | .num n =>
          let validAmount := if n == 1 || n == 5 || n == 10 then n else 1
          let cmds := [Cmd.shopSell sellItem.slot validAmount]
          if !ack.success then (⟨false, ack.message, none, none⟩, cmds)
          else
            let totalCountBefore := shopCountById st.shop.playerItems sellItem.id
            match waitForCondition
                (sellPred sellItem.id startTick totalCountBefore) stream with
            | none =>
              (⟨false, "Failed to sell " ++ sellItem.name ++ " (timeout)",
                none, none⟩, cmds)
            | some fs =>
              match classifySellMsgs3 startTick fs.gameMessages with
              | some 0 =>
                (⟨false, shopDoesntBuyStr ++ sellItem.name, none, some true⟩, cmds)
              | some 1 =>
                (⟨false, "Cannot sell " ++ sellItem.name ++ " to any shop",
                  none, some true⟩, cmds)
              | some _ =>
                (⟨false, sellItem.name ++ " is not tradeable",
                  none, some true⟩, cmds)
              | none =>
                let totalCountAfter :=
                  shopCountById fs.shop.playerItems sellItem.id
                let amountSold := totalCountBefore - totalCountAfter
                (⟨true, "Sold " ++ sellItem.name ++ " x" ++ toString amountSold,
                  some amountSold, none⟩, cmds)

/-- Claim C2: when the bank is open, the target resolves, some snapshot in
the polling window shows the per-id count dropped below the before-count
`B`, and the post-wait `getState()` read shows count `A < B`,
`depositItem` returns success with `amountDeposited = B - A`.  The local
acknowledgement of the deposit command is quantified over (`ack`) and the
model, like the source, never reads it: the reported amount comes only
from the before/after inventory difference. -/
theorem depositItem_reports_delta (target : Target InvItem) (item : InvItem)
    (st fsnap : Snapshot) (amount : Int) (ack : SendRes)
    (stream : List Snapshot)
    (hopen : st.interfaceOpen = true)
    (hres : resolveInventoryItem (some target) .wildcard (some st) = some item)
    (hw : ∃ w ∈ stream,
      countById w.inventory item.id < countById st.inventory item.id)
    (hlt : countById fsnap.inventory item.id < countById st.inventory item.id) :
    (depositItem target amount (some st) ack stream (some fsnap)).1 =
      ⟨true,
        "Deposited " ++ item.name ++ " x" ++
          toString (countById st.inventory item.id -
            countById fsnap.inventory item.id),
        none,
        some (countById st.inventory item.id -
          countById fsnap.inventory item.id)⟩ := by
  have hsome : (stream.find? (fun s =>
      decide (countById s.inventory item.id <
        countById st.inventory item.id))).isSome := by
    rw [List.find?_isSome]
    obtain ⟨w, hwmem, hwlt⟩ := hw
    exact ⟨w, hwmem, by simpa using hwlt⟩
  rcases hfind : stream.find? (fun s =>
      decide (countById s.inventory item.id <
        countById st.inventory item.id)) with _ | w
  · rw [hfind] at hsome
    simp at hsome
  · simp [depositItem, hopen, hres, waitForCondition, hfind]

/-- Witness for C2: one stack of 12 Iron ore before, 5 after the wait;
`amountDeposited` is 7 even though the echoed send acknowledgement says
failure. -/
theorem depositItem_reports_delta_witness :
    ((depositItem (.handle ⟨0, 42, "Iron ore", 12, []⟩) (-1)
      (some ⟨0, none, [⟨0, 42, "Iron ore", 12, []⟩], [], [], [], [], [],
        ⟨false, "", [], []⟩, true, ⟨false, []⟩⟩)
      ⟨false, "ignored"⟩
      [⟨1, none, [⟨0, 42, "Iron ore", 5, []⟩], [], [], [], [], [],
        ⟨false, "", [], []⟩, true, ⟨false, []⟩⟩]
      (some ⟨1, none, [⟨0, 42, "Iron ore", 5, []⟩], [], [], [], [], [],
        ⟨false, "", [], []⟩, true, ⟨false, []⟩⟩)).1.amountDeposited =
      some 7) ∧
    ((depositItem (.handle ⟨0, 42, "Iron ore", 12, []⟩) (-1)
      (some ⟨0, none, [⟨0, 42, "Iron ore", 12, []⟩], [], [], [], [], [],
        ⟨false, "", [], []⟩, true, ⟨false, []⟩⟩)
      ⟨false, "ignored"⟩
      [⟨1, none, [⟨0, 42, "Iron ore", 5, []⟩], [], [], [], [], [],
        ⟨false, "", [], []⟩, true, ⟨false, []⟩⟩]
      (some ⟨1, none, [⟨0, 42, "Iron ore", 5, []⟩], [], [], [], [], [],
        ⟨false, "", [], []⟩, true, ⟨false, []⟩⟩)).1.success = true) := by
  have h := depositItem_reports_delta
    (.handle ⟨0, 42, "Iron ore", 12, []⟩) ⟨0, 42, "Iron ore", 12, []⟩
    ⟨0, none, [⟨0, 42, "Iron ore", 12, []⟩], [], [], [], [], [],
      ⟨false, "", [], []⟩, true, ⟨false, []⟩⟩
    ⟨1, none, [⟨0, 42, "Iron ore", 5, []⟩], [], [], [], [], [],
      ⟨false, "", [], []⟩, true, ⟨false, []⟩⟩
    (-1) ⟨false, "ignored"⟩
    [⟨1, none, [⟨0, 42, "Iron ore", 5, []⟩], [], [], [], [], [],
      ⟨false, "", [], []⟩, true, ⟨false, []⟩⟩]
    rfl rfl
    ⟨⟨1, none, [⟨0, 42, "Iron ore", 5, []⟩], [], [], [], [], [],
      ⟨false, "", [], []⟩, true, ⟨false, []⟩⟩, by simp, by decide⟩
    (by decide)
  rw [h]
  constructor
  · show some (countById [⟨0, 42, "Iron ore", 12, []⟩] 42 -
      countById [⟨0, 42, "Iron ore", 5, []⟩] 42) = some 7
    decide
  · rfl

/-- A shop snapshot whose player-side stacks of item `id` are given by
`(slot, count)` pairs; used to build concrete sell-all traces. -/
def mkSellSnap (id : Nat) (name : String) (sks : List (Nat × Int)) : Snapshot :=
  ⟨0, none, [], [], [], [], [], [],
    ⟨true, "General Store", [], sks.map (fun p => (⟨p.1, id, name, p.2⟩ : ShopItem))⟩,
    false, ⟨false, []⟩⟩

/-- One fully-successful batch: the server removes `min 10 c` units from
the first stack. -/
def drain : List (Nat × Int) → List (Nat × Int)
  | [] => []
  | (s, c) :: rest => if c ≤ 10 then rest else (s, c - 10) :: rest

/-- The observation trace of a run of the sell-all loop in which every
batch succeeds: each batch sees the current sks, and its wait observes
the sks with one full batch drained. -/
def cleanSellEnv (id : Nat) (name : String) : List (Nat × Int) → List SellIter
  | [] => []
  | (s, c) :: rest =>
    ⟨some (mkSellSnap id name ((s, c) :: rest)),
      [mkSellSnap id name (drain ((s, c) :: rest))], true⟩ ::
      cleanSellEnv id name (drain ((s, c) :: rest))
termination_by sks => sks.length + (sks.map (fun p => p.2.toNat)).sum
decreasing_by
  simp only [drain]
  split
  · simp only [List.map_cons, List.sum_cons, List.length_cons]
    omega
  · simp only [List.map_cons, List.sum_cons, List.length_cons]
    omega

theorem shopCountById_mkStacks (id : Nat) (name : String)
    (sks : List (Nat × Int)) :
    shopCountById (sks.map (fun p => (⟨p.1, id, name, p.2⟩ : ShopItem))) id =
      (sks.map Prod.snd).sum := by
  induction sks with
  | nil => simp [shopCountById]
  | cons p rest ih => simp [shopCountById] at ih ⊢; omega

theorem drain_sum (s : Nat) (c : Int) (rest : List (Nat × Int)) :
    (List.map Prod.snd (drain ((s, c) :: rest))).sum =
      (List.map Prod.snd ((s, c) :: rest)).sum - min 10 c := by
  simp only [drain]
  split <;> simp <;> omega

theorem drain_pos (s : Nat) (c : Int) (rest : List (Nat × Int))
    (h : ∀ p ∈ (s, c) :: rest, 1 ≤ p.2) :
    ∀ p ∈ drain ((s, c) :: rest), 1 ≤ p.2 := by
  intro p hp
  simp only [drain] at hp
  by_cases hc : c ≤ 10
  · rw [if_pos hc] at hp
    exact h p (by simp [hp])
  · rw [if_neg hc] at hp
    rcases List.mem_cons.mp hp with hp | hp
    · subst hp
      simp
      omega
    · exact h p (by simp [hp])

theorem sellAllLoop_clean_step (item : ShopItem) (startTick : Int)
    (s : Nat) (c : Int) (rest : List (Nat × Int)) (hc : 1 ≤ c)
    (totalSold : Int) (cmds : List Cmd) :
    sellAllLoop item startTick
        (cleanSellEnv item.id item.name ((s, c) :: rest)) totalSold cmds =
      sellAllLoop item startTick
        (cleanSellEnv item.id item.name (drain ((s, c) :: rest)))
        (totalSold + min 10 c) (cmds ++ [Cmd.shopSell s (min 10 c)]) := by
  have hc0 : ((c : Int) == 0) = false := by
    simp only [beq_eq_false_iff_ne, ne_eq]
    omega
  have hdlt : shopCountById
      ((drain ((s, c) :: rest)).map
        (fun p => (⟨p.1, item.id, item.name, p.2⟩ : ShopItem))) item.id <
      shopCountById (((s, c) :: rest).map
        (fun p => (⟨p.1, item.id, item.name, p.2⟩ : ShopItem))) item.id := by
    rw [shopCountById_mkStacks, shopCountById_mkStacks, drain_sum]
    omega
  have hsold : shopCountById (((s, c) :: rest).map
      (fun p => (⟨p.1, item.id, item.name, p.2⟩ : ShopItem))) item.id -
      shopCountById ((drain ((s, c) :: rest)).map
        (fun p => (⟨p.1, item.id, item.name, p.2⟩ : ShopItem))) item.id =
      min 10 c := by
    rw [shopCountById_mkStacks, shopCountById_mkStacks, drain_sum]
    omega
  have hmin0 : ((min 10 c : Int) == 0) = false := by
    simp only [beq_eq_false_iff_ne, ne_eq]
    omega
  have hmapcons : (List.map
      (fun p => (⟨p.1, item.id, item.name, p.2⟩ : ShopItem)) ((s, c) :: rest)) =
      (⟨s, item.id, item.name, c⟩ : ShopItem) :: List.map
        (fun p => (⟨p.1, item.id, item.name, p.2⟩ : ShopItem)) rest := by
    simp
  rw [hmapcons] at hdlt hsold
  rw [cleanSellEnv]
  simp only [sellAllLoop, mkSellSnap, waitForCondition, List.find?, sellPred,
    classifySellMsgs, sellAllDelta, List.any_nil, List.map_cons, hc0,
    beq_self_eq_true, Bool.not_true, Bool.false_eq_true, if_false,
    Bool.false_or, Bool.or_false]
  rw [decide_eq_true hdlt]
  simp only [hsold, hmin0, Bool.false_eq_true, if_false]
  simp [classifySellMsgs]

theorem sellAllLoop_clean (item : ShopItem) (startTick : Int) :
    ∀ sks : List (Nat × Int), (∀ p ∈ sks, 1 ≤ p.2) →
    ∀ (totalSold : Int) (cmds : List Cmd),
      (sellAllLoop item startTick (cleanSellEnv item.id item.name sks)
        totalSold cmds).1 =
      sellAllFinish item.name (totalSold + (sks.map Prod.snd).sum) := by
  intro sks
  induction sks using cleanSellEnv.induct item.id item.name with
  | case1 =>
    intro _ totalSold cmds
    simp [cleanSellEnv, sellAllLoop]
  | case2 s c rest ih =>
    intro hpos totalSold cmds
    have hc : 1 ≤ c := hpos (s, c) (by simp)
    rw [sellAllLoop_clean_step item startTick s c rest hc totalSold cmds]
    rw [ih (drain_pos s c rest hpos) (totalSold + min 10 c)
      (cmds ++ [Cmd.shopSell s (min 10 c)])]
    have harith : totalSold + min 10 c +
        (List.map Prod.snd (drain ((s, c) :: rest))).sum =
        totalSold + (List.map Prod.snd ((s, c) :: rest)).sum := by
      rw [drain_sum]
      omega
    rw [harith]

theorem sellAllLoop_cap (item : ShopItem) (startTick : Int) :
    ∀ (env : List SellIter) (totalSold : Int) (cmds : List Cmd),
      (∀ slot amt, Cmd.shopSell slot amt ∈ cmds → amt ≤ 10) →
      ∀ slot amt, Cmd.shopSell slot amt ∈
        (sellAllLoop item startTick env totalSold cmds).2 → amt ≤ 10 := by
  intro env
  induction env with
  | nil =>
    intro t cmds hinv slot amt hmem
    simp only [sellAllLoop] at hmem
    exact hinv _ _ hmem
  | cons e rest ih =>
    intro t cmds hinv slot amt hmem
    have hstep : ∀ (cs : Nat) (cc : Int) (slot2 : Nat) (amt2 : Int),
        Cmd.shopSell slot2 amt2 ∈ cmds ++ [Cmd.shopSell cs (min 10 cc)] →
        amt2 ≤ 10 := by
      intro cs cc slot2 amt2 hm
      rcases List.mem_append.mp hm with hm | hm
      · exact hinv _ _ hm
      · simp at hm
        omega
    simp only [sellAllLoop] at hmem
    split at hmem
    · exact hinv _ _ hmem
    · split at hmem
      · exact hinv _ _ hmem
      · split at hmem
        · exact hinv _ _ hmem
        · split at hmem
          · exact hinv _ _ hmem
          · split at hmem
            · exact hstep _ _ _ _ hmem
            · split at hmem
              · exact hstep _ _ _ _ hmem
              · split at hmem
                · exact hstep _ _ _ _ hmem
                · exact hstep _ _ _ _ hmem
                · split at hmem
                  · exact hstep _ _ _ _ hmem
                  · exact ih _ _ (fun s2 a2 hm2 => hstep _ _ s2 a2 hm2) _ _ hmem

theorem sellAllLoop_rejection (item : ShopItem) (startTick tick : Int)
    (text : String) (s : Nat) (c : Int) (rest : List (Nat × Int))
    (rej : Snapshot)
    (hc : 1 ≤ c) (hpos : ∀ p ∈ (s, c) :: rest, 1 ≤ p.2)
    (hhere : hasCantSellHereMsg text = true)
    (hgen : hasCantSellMsg text = true)
    (htick : startTick < tick)
    (hrejmsgs : rej.gameMessages = [⟨tick, text⟩]) :
    (sellAllLoop item startTick
      [⟨some (mkSellSnap item.id item.name ((s, c) :: rest)), [rej], true⟩]
      0 []).1 =
      ⟨false, shopDoesntBuyStr ++ item.name, some 0, some true⟩ ∧
    (0 : Int) < (((s, c) :: rest).map Prod.snd).sum := by
  constructor
  · have hc0 : ((c : Int) == 0) = false := by
      simp only [beq_eq_false_iff_ne, ne_eq]
      omega
    have hpred : sellPred item.id startTick
        (shopCountById ((⟨s, item.id, item.name, c⟩ : ShopItem) ::
          List.map (fun p => (⟨p.1, item.id, item.name, p.2⟩ : ShopItem)) rest)
          item.id) rej = true := by
      simp [sellPred, hrejmsgs, hgen, htick]
    have hclass : classifySellMsgs startTick rej.gameMessages = some true := by
      simp [classifySellMsgs, hrejmsgs, hhere, htick]
    simp only [sellAllLoop, mkSellSnap, waitForCondition, List.find?,
      List.map_cons, hc0, beq_self_eq_true, Bool.not_true, Bool.false_eq_true,
      if_false, hpred, hclass]
    simp
  · have h0 : (0 : Int) ≤ (rest.map Prod.snd).sum :=
      List.sum_nonneg (by
        intro x hx
        simp only [List.mem_map] at hx
        obtain ⟨p, hp, hpx⟩ := hx
        have := hpos p (by simp [hp])
        omega)
    simp only [List.map_cons, List.sum_cons]
    omega

theorem sellAllDelta_zero (name : String) (totalSold before : Int) :
    sellAllDelta name totalSold before before =
      .inl (sellAllFinish name totalSold) := by
  simp [sellAllDelta]

/-- Claim C5: the sell-all flow of `sellToShop(item, amount = all)`.
Conjunct 1 (all batches succeed): on a trace in which every batch removes
the full `min(10, count)` from the player-side stacks, the loop reports
`amountSold = N`, the total unit count across all stacks.  Conjunct 2
(server rejection mid-loop): a tick-gated rejection message terminates the
loop — the model is a total function, so nothing is thrown — reporting the
amount sold so far (here 0 < N).  Conjunct 3 (defensive exit): a batch
whose before/after delta is zero breaks out of the loop instead of
continuing.  Conjunct 4 (per-click cap): every `sendShopSell` command the
loop issues asks for at most 10 units. -/
theorem sellToShop_all_accounting :
    (∀ (item : ShopItem) (startTick : Int) (sks : List (Nat × Int)),
      (∀ p ∈ sks, 1 ≤ p.2) →
      0 < (sks.map Prod.snd).sum →
      (sellAllToShop item startTick (cleanSellEnv item.id item.name sks)).1 =
        ⟨true, "Sold " ++ item.name ++ " x" ++ toString ((sks.map Prod.snd).sum),
          some ((sks.map Prod.snd).sum), none⟩) ∧
    (∀ (item : ShopItem) (startTick tick : Int) (text : String) (s : Nat)
      (c : Int) (rest : List (Nat × Int)) (rej : Snapshot),
      1 ≤ c → (∀ p ∈ (s, c) :: rest, 1 ≤ p.2) →
      hasCantSellHereMsg text = true →
      hasCantSellMsg text = true →
      startTick < tick →
      rej.gameMessages = [⟨tick, text⟩] →
      (sellAllToShop item startTick
        [⟨some (mkSellSnap item.id item.name ((s, c) :: rest)), [rej], true⟩]).1 =
        ⟨false, shopDoesntBuyStr ++ item.name, some 0, some true⟩ ∧
      (0 : Int) < (((s, c) :: rest).map Prod.snd).sum) ∧
    (∀ (name : String) (totalSold before : Int),
      sellAllDelta name totalSold before before =
        .inl (sellAllFinish name totalSold)) ∧
    (∀ (item : ShopItem) (startTick : Int) (env : List SellIter) (slot : Nat)
      (amt : Int),
      Cmd.shopSell slot amt ∈ (sellAllToShop item startTick env).2 →
      amt ≤ 10) := by
  refine ⟨?_, ?_, sellAllDelta_zero, ?_⟩
  · intro item startTick sks hpos hN
    unfold sellAllToShop
    rw [sellAllLoop_clean item startTick sks hpos 0 []]
    have hz : (0 : Int) + (sks.map Prod.snd).sum = (sks.map Prod.snd).sum := by
      omega
    rw [hz]
    unfold sellAllFinish
    have : (((sks.map Prod.snd).sum : Int) == 0) = false := by
      simp only [beq_eq_false_iff_ne, ne_eq]
      omega
    rw [this]
    simp
  · intro item startTick tick text s c rest rej hc hpos hhere hgen htick hmsgs
    exact sellAllLoop_rejection item startTick tick text s c rest rej hc hpos
      hhere hgen htick hmsgs
  · intro item startTick env slot amt hmem
    exact sellAllLoop_cap item startTick env 0 [] (by simp) slot amt hmem

/-- Witness for C5: selling all Feathers held in two stacks of 12 and 5
(N = 17) on a fully-successful trace reports `amountSold = 17`; a
this-shop rejection message at tick 1 (after `startTick = 0`) on a
13-Feather stack terminates with `amountSold = 0 < 13`. -/
theorem sellToShop_all_accounting_witness :
    ((sellAllToShop ⟨0, 7, "Feather", 0⟩ 0
      (cleanSellEnv 7 "Feather" [(0, 12), (1, 5)])).1.amountSold = some 17) ∧
    ((sellAllToShop ⟨0, 7, "Feather", 0⟩ 0
      [⟨some (mkSellSnap 7 "Feather" [(2, 13)]),
        [⟨1, none, [], [], [], [⟨1, "You " ++ cantSellHereStr ++ "."⟩], [], [],
          ⟨true, "General Store", [], []⟩, false, ⟨false, []⟩⟩], true⟩]).1 =
      ⟨false, shopDoesntBuyStr ++ "Feather", some 0, some true⟩) := by
  constructor
  · have h := sellToShop_all_accounting.1 ⟨0, 7, "Feather", 0⟩ 0
      [(0, 12), (1, 5)] (by decide) (by decide)
    rw [h]
    decide
  · have h := (sellToShop_all_accounting.2.1 ⟨0, 7, "Feather", 0⟩ 0 1
      ("You " ++ cantSellHereStr ++ ".") 2 13 []
      ⟨1, none, [], [], [], [⟨1, "You " ++ cantSellHereStr ++ "."⟩], [], [],
        ⟨true, "General Store", [], []⟩, false, ⟨false, []⟩⟩
      (by decide) (by decide) (by decide) (by decide) (by decide) rfl).1
    exact h

/-- Claim C10: numeric `sellToShop` clamps the requested quantity before
the sell command is sent: any amount outside `{1, 5, 10}` is replaced by
1, so the single issued `sendShopSell` command carries amount 1, whatever
was requested. -/
theorem sellToShop_clamps_amount (target : Target ShopItem) (item : ShopItem)
    (st : Snapshot) (ack : SendRes) (stream : List Snapshot)
    (allEnv : List SellIter) (n : Int)
    (hopen : st.shop.isOpen = true)
    (hres : resolveShopItem target st.shop.playerItems = some item)
    (hn : ¬(n = 1 ∨ n = 5 ∨ n = 10)) :
    (sellToShop target (.num n) (some st) ack stream allEnv).2 =
      [Cmd.shopSell item.slot 1] := by
  have hcl : (n == 1 || n == 5 || n == 10) = false := by
    push_neg at hn
    simp only [Bool.or_eq_false_iff, beq_eq_false_iff_ne, ne_eq]
    exact ⟨⟨hn.1, hn.2.1⟩, hn.2.2⟩
  simp only [sellToShop, hopen, hres, Bool.not_true, Bool.false_eq_true,
    if_false, hcl]
  split
  · rfl
  · split
    · rfl
    · split <;> rfl

/-- Witness for C10: requesting to sell 7 Bronze swords issues a sell
command for amount 1. -/
theorem sellToShop_clamps_amount_witness :
    (sellToShop (.handle ⟨3, 9, "Bronze sword", 1⟩) (.num 7)
      (some ⟨0, none, [], [], [], [], [], [],
        ⟨true, "Sword Shop", [], [⟨3, 9, "Bronze sword", 1⟩]⟩, false,
        ⟨false, []⟩⟩)
      ⟨true, "ok"⟩ [] []).2 = [Cmd.shopSell 3 1] :=
  sellToShop_clamps_amount (.handle ⟨3, 9, "Bronze sword", 1⟩)
    ⟨3, 9, "Bronze sword", 1⟩
    ⟨0, none, [], [], [], [], [], [],
      ⟨true, "Sword Shop", [], [⟨3, 9, "Bronze sword", 1⟩]⟩, false,
      ⟨false, []⟩⟩
    ⟨true, "ok"⟩ [] [] 7 rfl (by decide) (by decide)

/-- The shop modal counts as closed when there is no state or both the
shop flag and the modal-interface flag are down (`!state?.shop.isOpen &&
!state?.interface?.isOpen`; optional chaining makes a missing state read
as closed). -/
def shopModalClosed (s0 : Option Snapshot) : Bool :=
  match s0 with
  | none => true
  | some st => !st.shop.isOpen && !st.interfaceOpen

/-- The bank modal counts as closed when there is no state or the
modal-interface flag is down (`!state?.interface?.isOpen`). -/
def bankModalClosed (s0 : Option Snapshot) : Bool :=
  match s0 with
  | none => true
  | some st => !st.interfaceOpen

/-- `closeShop(timeout = 5000)` from `src/sdk/actions.ts`: immediate
success with no command when the modal is already closed; otherwise one
close command, a wait for both flags to drop, and on timeout a second
close command followed by a fresh read that decides success. -/
def closeShop (s0 : Option Snapshot) (stream : List Snapshot)
    (finalRead : Option Snapshot) : ActionResult × List Cmd :=
  if shopModalClosed s0 then (⟨true, "Shop already closed"⟩, [])
  else
    let cmds := [Cmd.closeShopCmd]
    match waitForCondition (fun s => !s.shop.isOpen && !s.interfaceOpen) stream with
    | some _ => (⟨true, "Shop closed"⟩, cmds)
    | none =>
      let cmds2 := cmds ++ [Cmd.closeShopCmd]
      match finalRead with
      | none => (⟨true, "Shop closed (second attempt)"⟩, cmds2)
      | some fs =>
        if !fs.shop.isOpen && !fs.interfaceOpen then
          (⟨true, "Shop closed (second attempt)"⟩, cmds2)
        else
          (⟨false, "Shop close timeout - shop.isOpen=" ++ toString fs.shop.isOpen ++
            ", interface.isOpen=" ++ toString fs.interfaceOpen⟩, cmds2)

/-- `closeBank(timeout = 5000)` from `src/sdk/actions.ts`, the bank
counterpart of `closeShop` (close via `sendCloseModal`). -/
def closeBank (s0 : Option Snapshot) (stream : List Snapshot)
    (finalRead : Option Snapshot) : ActionResult × List Cmd :=
  if bankModalClosed s0 then (⟨true, "Bank already closed"⟩, [])
  else
    let cmds := [Cmd.closeModal]
    match waitForCondition (fun s => !s.interfaceOpen) stream with
    | some _ => (⟨true, "Bank closed"⟩, cmds)
    | none =>
      let cmds2 := cmds ++ [Cmd.closeModal]
      match finalRead with
      | none => (⟨true, "Bank closed (second attempt)"⟩, cmds2)
      | some fs =>
        if !fs.interfaceOpen then (⟨true, "Bank closed (second attempt)"⟩, cmds2)
        else
          (⟨false, "Bank close timeout - interface.isOpen=" ++
            toString fs.interfaceOpen⟩, cmds2)

/-- An item lying on the ground. -/
structure GroundItem where
  x : Int
  z : Int
  id : Nat
  name : String
deriving Repr, DecidableEq

/-- Modelled from the spec: `findGroundItem(pattern)` over the current
ground-item collection (passed explicitly). -/
def findGroundItem (items : List GroundItem) (p : Pat) : Option GroundItem :=
  items.find? (fun g => p.test g.name)

/-- `resolveGroundItem` from `src/sdk/actions.ts`. -/
def resolveGroundItem (t : Target GroundItem) (ground : List GroundItem) :
    Option GroundItem :=
  match t with
  | .handle h => some h
  | .pattern p => findGroundItem ground p

/-- `{success, message, reason?, item?}` of `pickupItem`. -/
structure PickupResult where
  success : Bool
  message : String
  reason : Option String := none
  item : Option InvItem := none
deriving Repr, DecidableEq

/-- The wait predicate of `pickupItem`: a tick-gated cannot-reach or
inventory-full message, or the inventory growing. -/
def pickupPred (invCountBefore : Nat) (startTick : Int) (s : Snapshot) : Bool :=
  s.gameMessages.any (fun m => decide (m.tick > startTick) &&
    (hasCantReach m.text || hasInvFullMsg m.text)) ||
  decide (s.inventory.length > invCountBefore)

/-- The post-wait scan of `pickupItem` (`some true` = cannot reach,
`some false` = inventory full). -/
def classifyPickupMsgs (startTick : Int) : List ChatMsg → Option Bool
  | [] => none
  | m :: rest =>
    if m.tick > startTick then
      if hasCantReach m.text then some true
      else if hasInvFullMsg m.text then some false
      else classifyPickupMsgs startTick rest
    else classifyPickupMsgs startTick rest

/-- `pickupItem` from `src/sdk/actions.ts`. -/
def pickupItem (target : Target GroundItem) (ground : List GroundItem)
    (s0 : Option Snapshot) (ack : SendRes) (stream : List Snapshot)
    (finalRead : Option Snapshot) : PickupResult × List Cmd :=
  match resolveGroundItem target ground with
  | none => (⟨false, "Item not found on ground", some "item_not_found", none⟩, [])
  | some item =>
    let invCountBefore := match s0 with
      | some st => st.inventory.length
      | none => 0
    let startTick := match s0 with
      | some st => st.tick
      | none => 0
    let cmds := [Cmd.pickup item.x item.z item.id]
    if !ack.success then (⟨false, ack.message, none, none⟩, cmds)
    else
      match waitForCondition (pickupPred invCountBefore startTick) stream with
      | none => (⟨false, "Timed out waiting for pickup", some "timeout", none⟩, cmds)
      | some fs =>
        match classifyPickupMsgs startTick fs.gameMessages with
        | some true =>
          (⟨false, "Cannot reach " ++ item.name ++ " at " ++
            coordStr item.x item.z ++ " - path blocked",
            some "cant_reach", none⟩, cmds)
        | some false => (⟨false, "Inventory is full", some "inventory_full", none⟩, cmds)
        | none =>
          let picked := (match finalRead with
            | some st => st.inventory
            | none => []).find? (fun i => i.id == item.id)
          (⟨true, "Picked up " ++ item.name, none, picked⟩, cmds)

/-- `{success, message, reason?, hit?, xpGained?}` of `castSpellOnNpc`. -/
structure CastSpellResult where
  success : Bool
  message : String
  reason : Option String := none
  hit : Option Bool := none
  xpGained : Option Int := none
deriving Repr, DecidableEq

/-- Magic experience in a snapshot (`skills.find(Magic)?.experience ?? 0`). -/
def magicXp (s : Snapshot) : Int :=
  match s.skills.find? (fun sk => sk.name == "Magic") with
  | some sk => sk.experience
  | none => 0

/-- The wait predicate of `castSpellOnNpc`: a tick-gated cannot-reach or
missing-runes message, or a Magic experience increase. -/
def castPred (startTick startMagicXp : Int) (s : Snapshot) : Bool :=
  s.gameMessages.any (fun m => decide (m.tick > startTick) &&
    (hasCantReach m.text || hasNotEnoughMsg m.text)) ||
  decide (magicXp s > startMagicXp)

/-- The post-wait scan of `castSpellOnNpc` (`some true` = cannot reach,
`some false` = missing runes). -/
def classifyCastMsgs (startTick : Int) : List ChatMsg → Option Bool
  | [] => none
  | m :: rest =>
    if m.tick > startTick then
      if hasCantReach m.text then some true
      else if hasNotEnoughMsg m.text then some false
      else classifyCastMsgs startTick rest
    else classifyCastMsgs startTick rest

/-- `castSpellOnNpc` from `src/sdk/actions.ts`.  Note the timeout branch
of the source (`catch`) returns `success: true` with `hit: false`: a
timed-out cast is reported as a splash, not as a failure. -/
def castSpellOnNpc (target : Target NearbyNpc) (spellComponent : Int)
    (s0 : Option Snapshot) (ack : SendRes) (stream : List Snapshot) :
    CastSpellResult × List Cmd :=
  match resolveNpc target s0 with
  | none => (⟨false, "NPC not found", some "npc_not_found", none, none⟩, [])
  | some npc =>
    match s0 with
    | none => (⟨false, "No game state available", none, none, none⟩, [])
    | some st =>
      let startTick := st.tick
      let startMagicXp := magicXp st
      let cmds := [Cmd.spellOnNpc npc.index spellComponent]
      if !ack.success then (⟨false, ack.message, none, none, none⟩, cmds)
      else
        match waitForCondition (castPred startTick startMagicXp) stream with
        | none =>
          (⟨true, "Splashed on " ++ npc.name ++ " (timeout)", none,
            some false, some 0⟩, cmds)
        | some fs =>
          match classifyCastMsgs startTick fs.gameMessages with
          | some true =>
            (⟨false, "Cannot reach " ++ npc.name ++ " - obstacle in the way",
              some "out_of_reach", none, none⟩, cmds)
          | some false =>
            (⟨false, "Not enough runes to cast spell", some "no_runes",
              none, none⟩, cmds)
          | none =>
            let xpGained := magicXp fs - startMagicXp
            if xpGained > 0 then
              (⟨true, "Hit " ++ npc.name ++ " for " ++ toString xpGained ++
                " Magic XP", none, some true, some xpGained⟩, cmds)
            else (⟨true, "Splashed on " ++ npc.name, none, some false, some 0⟩, cmds)

/-- The bounded dialog-dismiss loop of `dismissBlockingUI` (max 10
attempts, each a `getState()` read followed by a first-option click while
a dialog is open).  Returns the issued click commands. -/
def dismissGo : Nat → List (Option Snapshot) → List Cmd → List Cmd
  | 0, _, cmds => cmds
  | _ + 1, [], cmds => cmds
  | fuel + 1, r :: rest, cmds =>
    match r with
    | none => cmds
    | some st =>
      if st.dialog.isOpen then dismissGo fuel rest (cmds ++ [Cmd.clickDialog 0])
      else cmds

/-- `dismissBlockingUI` from `src/sdk/actions.ts`. -/
def dismissBlockingUI (reads : List (Option Snapshot)) : List Cmd :=
  dismissGo 10 reads []

/-- `{success, message, logs?}` of `chopTree` — note: no `reason` field. -/
structure ChopTreeResult where
  success : Bool
  message : String
  logs : Option InvItem := none
deriving Repr, DecidableEq

/-- The wait predicate of `chopTree`: a new inventory item or the tree
disappearing. -/
def chopPred (treeX treeZ : Int) (treeId invCountBefore : Nat) (s : Snapshot) : Bool :=
  decide (s.inventory.length > invCountBefore) ||
  !(s.nearbyLocs.any (fun l => l.x == treeX && l.z == treeZ && l.id == treeId))

/-- `chopTree` from `src/sdk/actions.ts`. -/
def chopTree (target : Option (Target NearbyLoc))
    (dismissReads : List (Option Snapshot)) (s0 : Option Snapshot)
    (ack : SendRes) (stream : List Snapshot) (finalRead : Option Snapshot) :
    ChopTreeResult × List Cmd :=
  let dcmds := dismissBlockingUI dismissReads
  match resolveLocation target (Pat.exactAnyCI ["tree"]) s0 with
  | none => (⟨false, "No tree found", none⟩, dcmds)
  | some tree =>
    let invCountBefore := match s0 with
      | some st => st.inventory.length
      | none => 0
    let cmds := dcmds ++ [Cmd.interactLoc tree.x tree.z tree.id 1]
    if !ack.success then (⟨false, ack.message, none⟩, cmds)
    else
      match waitForCondition (chopPred tree.x tree.z tree.id invCountBefore)
          stream with
      | none => (⟨false, "Timed out waiting for tree chop", none⟩, cmds)
      | some _ =>
        let logs := findInventoryItem finalRead (Pat.containsAnyCI ["logs"])
        (⟨true, "Chopped tree", logs⟩, cmds)

/-- `{success, xpGained, message}` of `burnLogs` — no `reason` field. -/
structure BurnLogsResult where
  success : Bool
  xpGained : Int
  message : String
deriving Repr, DecidableEq

/-- Firemaking (or other) experience read
(`getSkill(name)?.experience || 0`). -/
def skillXp (s0 : Option Snapshot) (name : String) : Int :=
  match getSkill s0 name with
  | some sk => sk.experience
  | none => 0

/-- Chat text matching one of the fire-lighting failure phrases. -/
def hasBurnFailMsg (t : String) : Bool :=
  containsSub (lc t) cantLightStr || containsSub (lc t) "you need to move" ||
    containsSub (lc t) cantDoHereStr

/-- The wait predicate of `burnLogs`: a Firemaking experience increase or
a tick-gated failure phrase.  The source predicate also auto-clicks an
open dialog as a tick-rate-limited side effect; that side effect does not
change the predicate value and the click commands are not modelled. -/
def burnPred (fmBefore startTick : Int) (s : Snapshot) : Bool :=
  decide (skillXp (some s) "Firemaking" > fmBefore) ||
  s.gameMessages.any (fun m => decide (m.tick > startTick) && hasBurnFailMsg m.text)

/-- `burnLogs` from `src/sdk/actions.ts`. -/
def burnLogs (logsTarget : Option (Target InvItem))
    (dismissReads : List (Option Snapshot)) (s0 : Option Snapshot)
    (ack : SendRes) (stream : List Snapshot) (finalRead : Option Snapshot) :
    BurnLogsResult × List Cmd :=
  let dcmds := dismissBlockingUI dismissReads
  match findInventoryItem s0 (Pat.containsAnyCI ["tinderbox"]) with
  | none => (⟨false, 0, "No tinderbox in inventory"⟩, dcmds)
  | some tinderbox =>
    match resolveInventoryItem logsTarget (Pat.containsAnyCI ["logs"]) s0 with
    | none => (⟨false, 0, "No logs in inventory"⟩, dcmds)
    | some logs =>
      let fmBefore := skillXp s0 "Firemaking"
      let cmds := dcmds ++ [Cmd.useItemOnItem tinderbox.slot logs.slot]
      if !ack.success then (⟨false, 0, ack.message⟩, cmds)
      else
        let startTick := match s0 with
          | some st => st.tick
          | none => 0
        match waitForCondition (burnPred fmBefore startTick) stream with
        | none => (⟨false, 0, "Timed out waiting for fire"⟩, cmds)
        | some _ =>
          let xpGained := skillXp finalRead "Firemaking" - fmBefore
          (⟨decide (xpGained > 0), xpGained,
            if xpGained > 0 then "Burned logs"
            else "Failed to light fire (possibly bad location)"⟩, cmds)

/-- `{success, message, dialog?}` of `talkTo` — no `reason` field. -/
structure TalkResult where
  success : Bool
  message : String
  dialog : Option DialogState := none
deriving Repr, DecidableEq

/-- `talkTo` from `src/sdk/actions.ts`. -/
def talkTo (target : Target NearbyNpc) (s0 : Option Snapshot) (ack : SendRes)
    (stream : List Snapshot) : TalkResult × List Cmd :=
  match resolveNpc target s0 with
  | none => (⟨false, "NPC not found", none⟩, [])
  | some npc =>
    let cmds := [Cmd.talkNpc npc.index]
    if !ack.success then (⟨false, ack.message, none⟩, cmds)
    else
      match waitForCondition (fun s => s.dialog.isOpen) stream with
      | none => (⟨false, "Timed out waiting for dialog", none⟩, cmds)
      | some fs => (⟨true, "Talking to " ++ npc.name, some fs.dialog⟩, cmds)

/-- `{success, message}` of `equipItem` — no `reason` field. -/
structure EquipResult where
  success : Bool
  message : String
deriving Repr, DecidableEq

/-- The wait predicate of `equipItem`: the item gone from its slot. -/
def equipPred (slot id : Nat) (s : Snapshot) : Bool :=
  !(s.inventory.any (fun i => i.slot == slot && i.id == id))

/-- `equipItem` from `src/sdk/actions.ts`. -/
def equipItem (target : Target InvItem) (s0 : Option Snapshot) (ack : SendRes)
    (stream : List Snapshot) : EquipResult × List Cmd :=
  match resolveInventoryItem (some target) .wildcard s0 with
  | none => (⟨false, "Item not found"⟩, [])
  | some item =>
    match item.optionsWithIndex.find?
        (fun o => (Pat.containsAnyCI ["wield", "wear", "equip"]).test o.text) with
    | none => (⟨false, "No equip option on " ++ item.name⟩, [])
    | some equipOpt =>
      let cmds := [Cmd.useItem item.slot equipOpt.opIndex]
      if !ack.success then (⟨false, ack.message⟩, cmds)
      else
        match waitForCondition (equipPred item.slot item.id) stream with
        | none => (⟨false, "Failed to equip " ++ item.name⟩, cmds)
        | some _ => (⟨true, "Equipped " ++ item.name⟩, cmds)

/-- `{success, hpGained, message}` of `eatFood` — no `reason` field. -/
structure EatResult where
  success : Bool
  hpGained : Int
  message : String
deriving Repr, DecidableEq

/-- Hitpoints level read (`getSkill(Hitpoints)?.level ?? 10`). -/
def hpLevel (s0 : Option Snapshot) : Int :=
  match getSkill s0 "Hitpoints" with
  | some sk => sk.level
  | none => 10

/-- The wait predicate of `eatFood`: a Hitpoints level increase or the
per-id food stack count dropping. -/
def eatPred (foodId : Nat) (hpBefore : Int) (foodCountBefore : Nat)
    (s : Snapshot) : Bool :=
  decide (hpLevel (some s) > hpBefore) ||
  decide ((s.inventory.filter (fun i => i.id == foodId)).length < foodCountBefore)

/-- `eatFood` from `src/sdk/actions.ts`. -/
def eatFood (target : Target InvItem) (s0 : Option Snapshot) (ack : SendRes)
    (stream : List Snapshot) (finalRead : Option Snapshot) :
    EatResult × List Cmd :=
  match resolveInventoryItem (some target) .wildcard s0 with
  | none => (⟨false, 0, "Food not found"⟩, [])
  | some food =>
    match food.optionsWithIndex.find?
        (fun o => (Pat.containsAnyCI ["eat"]).test o.text) with
    | none => (⟨false, 0, "No eat option on " ++ food.name⟩, [])
    | some eatOpt =>
      let hpBefore := hpLevel s0
      let invBefore : List InvItem := match s0 with
        | some st => st.inventory
        | none => []
      let foodCountBefore := (invBefore.filter (fun i => i.id == food.id)).length
      let cmds := [Cmd.useItem food.slot eatOpt.opIndex]
      if !ack.success then (⟨false, 0, ack.message⟩, cmds)
      else
        match waitForCondition (eatPred food.id hpBefore foodCountBefore)
            stream with
        | none => (⟨false, 0, "Failed to eat " ++ food.name⟩, cmds)
        | some _ => (⟨true, hpLevel finalRead - hpBefore, "Ate " ++ food.name⟩, cmds)

/-- `openShop(target = /shop keeper/i)` from `src/sdk/actions.ts`. -/
def openShop (target : Target NearbyNpc) (s0 : Option Snapshot) (ack : SendRes)
    (stream : List Snapshot) (finalRead : Option Snapshot) :
    ActionResult × List Cmd :=
  match resolveNpc target s0 with
  | none => (⟨false, "Shopkeeper not found"⟩, [])
  | some npc =>
    match npc.optionsWithIndex.find?
        (fun o => (Pat.containsAnyCI ["trade"]).test o.text) with
    | none => (⟨false, "No trade option on NPC"⟩, [])
    | some tradeOpt =>
      let cmds := [Cmd.interactNpc npc.index tradeOpt.opIndex]
      if !ack.success then (⟨false, ack.message⟩, cmds)
      else
        match waitForCondition (fun s => s.shop.isOpen) stream with
        | none => (⟨false, "Timed out waiting for shop to open"⟩, cmds)
        | some _ =>
          let title := match finalRead with
            | some st => st.shop.title
            | none => "undefined"
          (⟨true, "Opened shop: " ++ title⟩, cmds)

/-- `{success, message, item?}` of `buyFromShop` — no `reason` field. -/
structure ShopResult where
  success : Bool
  message : String
  item : Option InvItem := none
deriving Repr, DecidableEq

/-- The wait predicate of `buyFromShop`: the first matching inventory
stack growing beyond its before-count. -/
def buyPred (id : Nat) (countBefore : Int) (s : Snapshot) : Bool :=
  match s.inventory.find? (fun i => i.id == id) with
  | none => false
  | some i => decide (i.count > countBefore)

/-- `buyFromShop(target, amount = 1)` from `src/sdk/actions.ts`. -/
def buyFromShop (target : Target ShopItem) (amount : Int) (s0 : Option Snapshot)
    (ack : SendRes) (stream : List Snapshot) (finalRead : Option Snapshot) :
    ShopResult × List Cmd :=
  match s0 with
  | none => (⟨false, "Shop is not open", none⟩, [])
  | some st =>
    if !st.shop.isOpen then (⟨false, "Shop is not open", none⟩, [])
    else
      match resolveShopItem target st.shop.shopItems with
      | none => (⟨false, "Item not found in shop", none⟩, [])
      | some shopItem =>
        let countBefore := match st.inventory.find? (fun i => i.id == shopItem.id) with
          | some i => i.count
          | none => 0
        let cmds := [Cmd.shopBuy shopItem.slot amount]
        if !ack.success then (⟨false, ack.message, none⟩, cmds)
        else
          match waitForCondition (buyPred shopItem.id countBefore) stream with
          | none =>
            (⟨false, "Failed to buy " ++ shopItem.name ++
              " (no coins or out of stock?)", none⟩, cmds)
          | some _ =>
            let bought := (match finalRead with
              | some fsn => fsn.inventory
              | none => []).find? (fun i => i.id == shopItem.id)
            (⟨true, "Bought " ++ shopItem.name ++ " x" ++ toString amount,
              bought⟩, cmds)

/-- `{success, message, reason?, door?}` of `openDoor`. -/
structure OpenDoorResult where
  success : Bool
  message : String
  reason : Option String := none
  door : Option NearbyLoc := none
deriving Repr, DecidableEq

/-- A location name matching `/door|gate/i`. -/
def isDoorName (name : String) : Bool :=
  (Pat.containsAnyCI ["door", "gate"]).test name

/-- The `/^open$/i` option of a location, when present. -/
def findOpenOpt (l : NearbyLoc) : Option OptionEntry :=
  l.optionsWithIndex.find? (fun o => (Pat.exactAnyCI ["open"]).test o.text)

/-- The location has a `/^close$/i` option. -/
def hasCloseOpt (l : NearbyLoc) : Bool :=
  l.optionsWithIndex.any (fun o => (Pat.exactAnyCI ["close"]).test o.text)

/-- The first door/gate location at exactly `(x, z)` in a snapshot. -/
def doorAt (x z : Int) (s : Option Snapshot) : Option NearbyLoc :=
  match s with
  | none => none
  | some st =>
    st.nearbyLocs.find? (fun l => l.x == x && l.z == z && isDoorName l.name)

/-- The wait predicate of `openDoor`: a tick-gated cannot-reach message,
the door gone, or the door showing Close without Open. -/
def openDoorPred (doorX doorZ startTick : Int) (s : Snapshot) : Bool :=
  s.gameMessages.any (fun m => decide (m.tick > startTick) && hasCantReach m.text) ||
  (match s.nearbyLocs.find?
      (fun l => l.x == doorX && l.z == doorZ && isDoorName l.name) with
   | none => true
   | some doorNow =>
     hasCloseOpt doorNow &&
       !(doorNow.optionsWithIndex.any
         (fun o => (Pat.exactAnyCI ["open"]).test o.text)))

/-- The wait-and-classify tail of `openDoor`, shared by the near and
walked paths: record `startTick` from a fresh read, wait, then re-scan a
fresh final read for the gated cannot-reach message and for the door
state. -/
def openDoorWait (door : NearbyLoc) (cmds : List Cmd)
    (tickRead : Option Snapshot) (stream : List Snapshot)
    (finalRead : Option Snapshot) : OpenDoorResult × List Cmd :=
  let startTick := match tickRead with
    | some st => st.tick
    | none => 0
  match waitForCondition (openDoorPred door.x door.z startTick) stream with
  | none =>
    (⟨false, "Timeout waiting for " ++ door.name ++ " to open",
      some "timeout", some door⟩, cmds)
  | some _ =>
    if (match finalRead with
        | some fs => fs.gameMessages.any (fun m =>
            decide (m.tick > startTick) && hasCantReach m.text)
        | none => false) then
      (⟨false, "Cannot reach " ++ door.name ++ " - still blocked",
        some "open_failed", some door⟩, cmds)
    else
      match doorAt door.x door.z finalRead with
      | none => (⟨true, "Opened " ++ door.name, none, some door⟩, cmds)
      | some doorAfter =>
        if hasCloseOpt doorAfter then
          (⟨true, "Opened " ++ door.name, none, some doorAfter⟩, cmds)
        else
          (⟨false, door.name ++ " did not open", some "open_failed",
            some doorAfter⟩, cmds)

/-- `openDoor` from `src/sdk/actions.ts`.  The proximity walk of the far
path is a nested `walkTo` call, modelled by its result `walkRes` (its
commands are those of `walkTo`, not repeated here); after the walk the
door is re-resolved by coordinates from a fresh read (`locsRead`). -/
def openDoor (target : Option (Target NearbyLoc)) (s0 : Option Snapshot)
    (walkRes : ActionResult) (locsRead : Option Snapshot)
    (tickRead : Option Snapshot) (stream : List Snapshot)
    (finalRead : Option Snapshot) : OpenDoorResult × List Cmd :=
  match resolveLocation target (Pat.containsAnyCI ["door", "gate"]) s0 with
  | none => (⟨false, "No door found nearby", some "door_not_found", none⟩, [])
  | some door =>
    match findOpenOpt door with
    | none =>
      if hasCloseOpt door then
        (⟨true, door.name ++ " is already open", some "already_open",
          some door⟩, [])
      else
        (⟨false, door.name ++ " has no Open option (options: " ++
          String.intercalate ", " door.options ++ ")",
          some "no_open_option", some door⟩, [])
    | some openOpt =>
      if door.distance > 2 then
        if !walkRes.success then
          (⟨false, "Could not walk to " ++ door.name ++ ": " ++ walkRes.message,
            some "walk_failed", some door⟩, [])
        else
          match doorAt door.x door.z locsRead with
          | none =>
            (⟨true, door.name ++ " is no longer visible (may have been opened)",
              none, some door⟩, [])
          | some refreshed =>
            match findOpenOpt refreshed with
            | none =>
              if hasCloseOpt refreshed then
                (⟨true, door.name ++ " is already open", some "already_open",
                  some refreshed⟩, [])
              else
                (⟨false, door.name ++ " no longer has Open option",
                  some "no_open_option", some refreshed⟩, [])
            | some rOpt =>
              openDoorWait door
                [Cmd.interactLoc refreshed.x refreshed.z refreshed.id rOpt.opIndex]
                tickRead stream finalRead
      else
        openDoorWait door [Cmd.interactLoc door.x door.z door.id openOpt.opIndex]
          tickRead stream finalRead

/-- `{success, message, reason?}` of `openBank`. -/
structure OpenBankResult where
  success : Bool
  message : String
  reason : Option String := none
deriving Repr, DecidableEq

/-- The retry loop of `openBank`: each round is one bounded
`waitForCondition` for the interface or a dialog (its polling trace),
followed by a fresh read; an open interface is success, an open dialog is
auto-advanced by clicking its first option, and a timed-out round simply
continues.  The source bounds the loop by wall-clock time; the model
bounds it by the finite round trace, with the final fresh read deciding
between late success and the timeout failure. -/
def openBankLoop : List (List Snapshot × Option Snapshot) → Option Snapshot →
    List Cmd → OpenBankResult × List Cmd
  | [], finalRead, cmds =>
    match finalRead with
    | some fs =>
      if fs.interfaceOpen then (⟨true, "Bank opened", none⟩, cmds)
      else (⟨false, "Timeout waiting for bank interface to open",
        some "timeout"⟩, cmds)
    | none =>
      (⟨false, "Timeout waiting for bank interface to open",
        some "timeout"⟩, cmds)
  | (ws, post) :: rest, finalRead, cmds =>
    if (waitForCondition (fun s => s.interfaceOpen || s.dialog.isOpen)
        ws).isSome then
      match post with
      | some cs =>
        if cs.interfaceOpen then (⟨true, "Bank opened", none⟩, cmds)
        else if cs.dialog.isOpen then
          let optIdx := match cs.dialog.options.head? with
            | some o => o.index
            | none => 0
          openBankLoop rest finalRead (cmds ++ [Cmd.clickDialog optIdx])
        else openBankLoop rest finalRead cmds
      | none => openBankLoop rest finalRead cmds
    else openBankLoop rest finalRead cmds

/-- `openBank(timeout = 10000)` from `src/sdk/actions.ts`: immediate
success when the modal interface is already open, else dismiss blocking
UI, locate a banker NPC (Bank option) or a bank booth/chest (Bank or Use
option), interact once, and drive the dialog-tolerant retry loop. -/
def openBank (s0 : Option Snapshot) (dismissReads : List (Option Snapshot))
    (findRead : Option Snapshot)
    (rounds : List (List Snapshot × Option Snapshot))
    (finalRead : Option Snapshot) : OpenBankResult × List Cmd :=
  if (match s0 with
      | some st => st.interfaceOpen
      | none => false) then
    (⟨true, "Bank already open", none⟩, [])
  else
    let dcmds := dismissBlockingUI dismissReads
    let banker := findNearbyNpc findRead (Pat.containsAnyCI ["banker"])
    let booth := findNearbyLoc findRead (Pat.containsAnyCI ["bank booth", "bank chest"])
    let viaBanker : Option Cmd := match banker with
      | some b =>
        match b.optionsWithIndex.find?
            (fun o => (Pat.exactAnyCI ["bank"]).test o.text) with
        | some opt => some (Cmd.interactNpc b.index opt.opIndex)
        | none => none
      | none => none
    let viaBooth : Option Cmd := match booth with
      | some bb =>
        match (bb.optionsWithIndex.find?
            (fun o => (Pat.exactAnyCI ["bank"]).test o.text)).orElse
            (fun _ => bb.optionsWithIndex.find?
              (fun o => (Pat.containsAnyCI ["use"]).test o.text)) with
        | some opt => some (Cmd.interactLoc bb.x bb.z bb.id opt.opIndex)
        | none => none
      | none => none
    match viaBanker.orElse (fun _ => viaBooth) with
    | none =>
      (⟨false, "No banker NPC or bank booth found nearby",
        some "no_bank_found"⟩, dcmds)
    | some icmd => openBankLoop rounds finalRead (dcmds ++ [icmd])

/-- Claim C9: `closeBank` and `closeShop` are idempotent and safe to call
redundantly: whenever the corresponding modal UI is already closed in the
snapshot the call reads (including after a successful close, whose success
paths all verify the closed flags), the helper returns success immediately
and issues no close command at all — so a repeated call changes nothing
and still succeeds. -/
theorem close_helpers_idempotent :
    (∀ (s0 : Option Snapshot) (stream : List Snapshot)
      (finalRead : Option Snapshot),
      bankModalClosed s0 = true →
      closeBank s0 stream finalRead = (⟨true, "Bank already closed"⟩, [])) ∧
    (∀ (s0 : Option Snapshot) (stream : List Snapshot)
      (finalRead : Option Snapshot),
      shopModalClosed s0 = true →
      closeShop s0 stream finalRead = (⟨true, "Shop already closed"⟩, [])) := by
  constructor
  · intro s0 stream finalRead h
    simp [closeBank, h]
  · intro s0 stream finalRead h
    simp [closeShop, h]

/-- Witness for C9: a snapshot with shop and bank modals closed; both
helpers succeed with zero commands, twice in a row. -/
theorem close_helpers_idempotent_witness :
    closeBank (some ⟨0, none, [], [], [], [], [], [], ⟨false, "", [], []⟩,
      false, ⟨false, []⟩⟩) [] none = (⟨true, "Bank already closed"⟩, []) ∧
    closeShop (some ⟨0, none, [], [], [], [], [], [], ⟨false, "", [], []⟩,
      false, ⟨false, []⟩⟩) [] none = (⟨true, "Shop already closed"⟩, []) :=
  ⟨close_helpers_idempotent.1 _ [] none (by decide),
   close_helpers_idempotent.2 _ [] none (by decide)⟩

/-- Counterexample to claim C1 as stated: `castSpellOnNpc` on a wait that
times out (empty polling trace) returns `success := true` (a "splash"),
not `{success: false, reason: timeout}` as the claim requires of every
verified action. -/
theorem castSpell_timeout_counterexample :
    (castSpellOnNpc (.handle ⟨7, "Goblin", 5, [⟨"Attack", 2⟩]⟩) 100
      (some ⟨0, none, [], [], [], [], [], [], ⟨false, "", [], []⟩, false,
        ⟨false, []⟩⟩)
      ⟨true, "ok"⟩ []).1.success = true ∧
    (castSpellOnNpc (.handle ⟨7, "Goblin", 5, [⟨"Attack", 2⟩]⟩) 100
      (some ⟨0, none, [], [], [], [], [], [], ⟨false, "", [], []⟩, false,
        ⟨false, []⟩⟩)
      ⟨true, "ok"⟩ []).1.reason = none := by
  constructor <;> rfl

/-- Claim C1 (amended): on a timed-out post-command wait no verified
action throws (every model is a total function), and the returned value
is: `success:false` with reason `timeout` for `attackNpc`, `pickupItem`,
`openDoor`, `depositItem`, `withdrawItem` and `openBank`; `success:false`
with a descriptive message but no reason field for `chopTree`,
`burnLogs`, `talkTo`, `equipItem`, `eatFood`, `openShop`, `buyFromShop`
and numeric `sellToShop`; end-of-batching for the sell-all loop (failure
only when nothing was sold yet); a retried close decided by a fresh final
read for `closeShop`/`closeBank`; and — the exception the counterexample
exhibits — `success:true` with `hit:false, xpGained:0` for
`castSpellOnNpc`, which reports the timeout as a splashed cast. -/
theorem timeout_behavior_per_action :
    (∀ (npc : NearbyNpc) (opt : OptionEntry) (st0 : Snapshot) (ack : SendRes)
      (stream : List Snapshot),
      npc.optionsWithIndex.find?
        (fun o => (Pat.containsAnyCI ["attack"]).test o.text) = some opt →
      ack.success = true →
      waitForCondition (attackPred npc.index st0.tick) stream = none →
      (attackNpc (.handle npc) (some st0) ack stream).1 =
        ⟨false, "Timeout waiting to attack " ++ npc.name, some "timeout"⟩) ∧
    (∀ (g : GroundItem) (ground : List GroundItem) (st0 : Snapshot)
      (ack : SendRes) (stream : List Snapshot) (finalRead : Option Snapshot),
      ack.success = true →
      waitForCondition (pickupPred st0.inventory.length st0.tick) stream = none →
      (pickupItem (.handle g) ground (some st0) ack stream finalRead).1 =
        ⟨false, "Timed out waiting for pickup", some "timeout", none⟩) ∧
    (∀ (door : NearbyLoc) (opt : OptionEntry) (s0 : Option Snapshot)
      (walkRes : ActionResult) (locsRead : Option Snapshot) (tr : Snapshot)
      (stream : List Snapshot) (finalRead : Option Snapshot),
      findOpenOpt door = some opt →
      door.distance ≤ 2 →
      waitForCondition (openDoorPred door.x door.z tr.tick) stream = none →
      (openDoor (some (.handle door)) s0 walkRes locsRead (some tr) stream
        finalRead).1 =
        ⟨false, "Timeout waiting for " ++ door.name ++ " to open",
          some "timeout", some door⟩) ∧
    (∀ (target : Target InvItem) (item : InvItem) (st : Snapshot)
      (amount : Int) (ack : SendRes) (stream : List Snapshot)
      (finalRead : Option Snapshot),
      st.interfaceOpen = true →
      resolveInventoryItem (some target) .wildcard (some st) = some item →
      waitForCondition (fun s =>
        decide (countById s.inventory item.id <
          countById st.inventory item.id)) stream = none →
      (depositItem target amount (some st) ack stream finalRead).1 =
        ⟨false, "Timeout waiting for " ++ item.name ++ " to be deposited",
          some "timeout", none⟩) ∧
    (∀ (bankSlot : Nat) (amount : Int) (st : Snapshot) (ack : SendRes)
      (stream : List Snapshot) (finalRead : Option Snapshot),
      st.interfaceOpen = true →
      waitForCondition (fun s =>
        decide (s.inventory.length > st.inventory.length) ||
        s.inventory.any (fun i =>
          match st.inventory.find? (fun bi => bi.slot == i.slot) with
          | some bi => decide (i.count > bi.count)
          | none => false)) stream = none →
      (withdrawItem bankSlot amount (some st) ack stream finalRead).1 =
        ⟨false, "Timeout waiting for item to be withdrawn",
          some "timeout", none⟩) ∧
    (∀ (st : Snapshot) (dismissReads : List (Option Snapshot))
      (findRead : Option Snapshot) (b : NearbyNpc) (opt : OptionEntry)
      (fr : Snapshot),
      st.interfaceOpen = false →
      findNearbyNpc findRead (Pat.containsAnyCI ["banker"]) = some b →
      b.optionsWithIndex.find?
        (fun o => (Pat.exactAnyCI ["bank"]).test o.text) = some opt →
      fr.interfaceOpen = false →
      (openBank (some st) dismissReads findRead [] (some fr)).1 =
        ⟨false, "Timeout waiting for bank interface to open",
          some "timeout"⟩) ∧
    (∀ (tree : NearbyLoc) (dismissReads : List (Option Snapshot))
      (st0 : Snapshot) (ack : SendRes) (stream : List Snapshot)
      (finalRead : Option Snapshot),
      ack.success = true →
      waitForCondition (chopPred tree.x tree.z tree.id
        st0.inventory.length) stream = none →
      (chopTree (some (.handle tree)) dismissReads (some st0) ack stream
        finalRead).1 =
        ⟨false, "Timed out waiting for tree chop", none⟩) ∧
    (∀ (logsTarget : Option (Target InvItem)) (tb logs : InvItem)
      (dismissReads : List (Option Snapshot)) (st0 : Snapshot) (ack : SendRes)
      (stream : List Snapshot) (finalRead : Option Snapshot),
      findInventoryItem (some st0) (Pat.containsAnyCI ["tinderbox"]) = some tb →
      resolveInventoryItem logsTarget (Pat.containsAnyCI ["logs"]) (some st0) =
        some logs →
      ack.success = true →
      waitForCondition (burnPred (skillXp (some st0) "Firemaking") st0.tick)
        stream = none →
      (burnLogs logsTarget dismissReads (some st0) ack stream finalRead).1 =
        ⟨false, 0, "Timed out waiting for fire"⟩) ∧
    (∀ (npc : NearbyNpc) (s0 : Option Snapshot) (ack : SendRes)
      (stream : List Snapshot),
      ack.success = true →
      waitForCondition (fun s => s.dialog.isOpen) stream = none →
      (talkTo (.handle npc) s0 ack stream).1 =
        ⟨false, "Timed out waiting for dialog", none⟩) ∧
    (∀ (item : InvItem) (opt : OptionEntry) (s0 : Option Snapshot)
      (ack : SendRes) (stream : List Snapshot),
      item.optionsWithIndex.find?
        (fun o => (Pat.containsAnyCI ["wield", "wear", "equip"]).test o.text) =
        some opt →
      ack.success = true →
      waitForCondition (equipPred item.slot item.id) stream = none →
      (equipItem (.handle item) s0 ack stream).1 =
        ⟨false, "Failed to equip " ++ item.name⟩) ∧
    (∀ (food : InvItem) (opt : OptionEntry) (st0 : Snapshot) (ack : SendRes)
      (stream : List Snapshot) (finalRead : Option Snapshot),
      food.optionsWithIndex.find?
        (fun o => (Pat.containsAnyCI ["eat"]).test o.text) = some opt →
      ack.success = true →
      waitForCondition (eatPred food.id (hpLevel (some st0))
        ((st0.inventory.filter (fun i => i.id == food.id)).length)) stream =
        none →
      (eatFood (.handle food) (some st0) ack stream finalRead).1 =
        ⟨false, 0, "Failed to eat " ++ food.name⟩) ∧
    (∀ (npc : NearbyNpc) (opt : OptionEntry) (s0 : Option Snapshot)
      (ack : SendRes) (stream : List Snapshot) (finalRead : Option Snapshot),
      npc.optionsWithIndex.find?
        (fun o => (Pat.containsAnyCI ["trade"]).test o.text) = some opt →
      ack.success = true →
      waitForCondition (fun s => s.shop.isOpen) stream = none →
      (openShop (.handle npc) s0 ack stream finalRead).1 =
        ⟨false, "Timed out waiting for shop to open"⟩) ∧
    (∀ (target : Target ShopItem) (item : ShopItem) (st : Snapshot)
      (amount : Int) (ack : SendRes) (stream : List Snapshot)
      (finalRead : Option Snapshot),
      st.shop.isOpen = true →
      resolveShopItem target st.shop.shopItems = some item →
      ack.success = true →
      waitForCondition (buyPred item.id
        (match st.inventory.find? (fun i => i.id == item.id) with
         | some i => i.count
         | none => 0)) stream = none →
      (buyFromShop target amount (some st) ack stream finalRead).1 =
        ⟨false, "Failed to buy " ++ item.name ++
          " (no coins or out of stock?)", none⟩) ∧
    (∀ (target : Target ShopItem) (item : ShopItem) (st : Snapshot) (n : Int)
      (ack : SendRes) (stream : List Snapshot) (allEnv : List SellIter),
      st.shop.isOpen = true →
      resolveShopItem target st.shop.playerItems = some item →
      ack.success = true →
      waitForCondition (sellPred item.id st.tick
        (shopCountById st.shop.playerItems item.id)) stream = none →
      (sellToShop target (.num n) (some st) ack stream allEnv).1 =
        ⟨false, "Failed to sell " ++ item.name ++ " (timeout)", none, none⟩) ∧
    (∀ (item : ShopItem) (startTick : Int) (st : Snapshot) (cur : ShopItem)
      (ws : List Snapshot),
      st.shop.isOpen = true →
      st.shop.playerItems.find? (fun i => i.id == item.id) = some cur →
      (cur.count == 0) = false →
      waitForCondition (sellPred item.id startTick
        (shopCountById st.shop.playerItems item.id)) ws = none →
      (sellAllLoop item startTick [⟨some st, ws, true⟩] 0 []).1 =
        ⟨false, "Failed to sell any " ++ item.name, none, none⟩) ∧
    (∀ (s0 : Option Snapshot) (stream : List Snapshot) (fs : Snapshot),
      shopModalClosed s0 = false →
      waitForCondition (fun s => !s.shop.isOpen && !s.interfaceOpen) stream =
        none →
      (closeShop s0 stream (some fs)).1 =
        (if !fs.shop.isOpen && !fs.interfaceOpen then
          (⟨true, "Shop closed (second attempt)"⟩ : ActionResult)
        else ⟨false, "Shop close timeout - shop.isOpen=" ++
          toString fs.shop.isOpen ++ ", interface.isOpen=" ++
          toString fs.interfaceOpen⟩)) ∧
    (∀ (s0 : Option Snapshot) (stream : List Snapshot) (fs : Snapshot),
      bankModalClosed s0 = false →
      waitForCondition (fun s => !s.interfaceOpen) stream = none →
      (closeBank s0 stream (some fs)).1 =
        (if !fs.interfaceOpen then
          (⟨true, "Bank closed (second attempt)"⟩ : ActionResult)
        else ⟨false, "Bank close timeout - interface.isOpen=" ++
          toString fs.interfaceOpen⟩)) ∧
    (∀ (npc : NearbyNpc) (spellComponent : Int) (st : Snapshot) (ack : SendRes)
      (stream : List Snapshot),
      ack.success = true →
      waitForCondition (castPred st.tick (magicXp st)) stream = none →
      (castSpellOnNpc (.handle npc) spellComponent (some st) ack stream).1 =
        ⟨true, "Splashed on " ++ npc.name ++ " (timeout)", none,
          some false, some 0⟩) := by
  refine ⟨?_, ?_, ?_, ?_, ?_, ?_, ?_, ?_, ?_, ?_, ?_, ?_, ?_, ?_, ?_, ?_, ?_, ?_⟩
  · intro npc opt st0 ack stream hopt hack hw
    simp [attackNpc, resolveNpc, hopt, hack, hw]
  · intro g ground st0 ack stream finalRead hack hw
    simp [pickupItem, resolveGroundItem, hack, hw]
  · intro door opt s0 walkRes locsRead tr stream finalRead hopt hdist hw
    have hfar : ¬ door.distance > 2 := by omega
    simp [openDoor, resolveLocation, openDoorWait, hopt, hfar, hw]
  · intro target item st amount ack stream finalRead hopen hres hw
    simp [depositItem, hopen, hres, hw]
  · intro bankSlot amount st ack stream finalRead hopen hw
    simp [withdrawItem, hopen, hw]
  · intro st dismissReads findRead b opt fr hclosed hfind hopt hfr
    simp [openBank, openBankLoop, hclosed, hfind, hopt, hfr, Option.orElse]
  · intro tree dismissReads st0 ack stream finalRead hack hw
    simp [chopTree, resolveLocation, hack, hw]
  · intro logsTarget tb logs dismissReads st0 ack stream finalRead htb hlogs
      hack hw
    simp [burnLogs, htb, hlogs, hack, hw]
  · intro npc s0 ack stream hack hw
    simp [talkTo, resolveNpc, hack, hw]
  · intro item opt s0 ack stream hopt hack hw
    simp [equipItem, resolveInventoryItem, hopt, hack, hw]
  · intro food opt st0 ack stream finalRead hopt hack hw
    simp [eatFood, resolveInventoryItem, hopt, hack, hw]
  · intro npc opt s0 ack stream finalRead hopt hack hw
    simp [openShop, resolveNpc, hopt, hack, hw]
  · intro target item st amount ack stream finalRead hopen hres hack hw
    simp [buyFromShop, hopen, hres, hack, hw]
  · intro target item st n ack stream allEnv hopen hres hack hw
    simp [sellToShop, hopen, hres, hack, hw]
  · intro item startTick st cur ws hopen hcur hc0 hw
    simp [sellAllLoop, sellAllFinish, hopen, hcur, hc0, hw]
  · intro s0 stream fs hclosed hw
    simp [closeShop, hclosed, hw]
    split <;> rfl
  · intro s0 stream fs hclosed hw
    simp [closeBank, hclosed, hw]
    split <;> rfl
  · intro npc spellComponent st ack stream hack hw
    simp [castSpellOnNpc, resolveNpc, hack, hw]

/-- Witness for the amended C1: concrete timed-out (empty-trace) runs of
`attackNpc` (failure with reason timeout) and `castSpellOnNpc` (reported
as a successful splash). -/
theorem timeout_behavior_per_action_witness :
    (attackNpc (.handle ⟨7, "Goblin", 5, [⟨"Attack", 2⟩]⟩)
      (some ⟨0, none, [], [], [], [], [], [], ⟨false, "", [], []⟩, false,
        ⟨false, []⟩⟩)
      ⟨true, "ok"⟩ []).1 =
      ⟨false, "Timeout waiting to attack Goblin", some "timeout"⟩ ∧
    (castSpellOnNpc (.handle ⟨7, "Goblin", 5, [⟨"Attack", 2⟩]⟩) 100
      (some ⟨0, none, [], [], [], [], [], [], ⟨false, "", [], []⟩, false,
        ⟨false, []⟩⟩)
      ⟨true, "ok"⟩ []).1 =
      ⟨true, "Splashed on Goblin (timeout)", none, some false, some 0⟩ := by
  constructor
  · exact timeout_behavior_per_action.1 ⟨7, "Goblin", 5, [⟨"Attack", 2⟩]⟩
      ⟨"Attack", 2⟩
      ⟨0, none, [], [], [], [], [], [], ⟨false, "", [], []⟩, false, ⟨false, []⟩⟩
      ⟨true, "ok"⟩ [] (by decide) rfl rfl
  · exact timeout_behavior_per_action.2.2.2.2.2.2.2.2.2.2.2.2.2.2.2.2.2
      ⟨7, "Goblin", 5, [⟨"Attack", 2⟩]⟩ 100
      ⟨0, none, [], [], [], [], [], [], ⟨false, "", [], []⟩, false, ⟨false, []⟩⟩
      ⟨true, "ok"⟩ [] rfl rfl

/-- The closed failure-reason taxonomy of spec section 7. -/
def sectionSevenTaxonomy : List String :=
  ["target_not_found", "no_option", "out_of_reach", "cant_reach",
   "already_in_combat", "already_open", "inventory_full", "timeout",
   "rejected", "walk_failed", "stuck"]

/-- The reason strings the source actually returns, collected from every
`reason:` literal in `src/sdk/actions.ts`. -/
def codeReasons : List String :=
  ["door_not_found", "already_open", "no_open_option", "walk_failed",
   "open_failed", "timeout", "item_not_found", "cant_reach",
   "inventory_full", "npc_not_found", "no_attack_option", "out_of_reach",
   "already_in_combat", "no_runes", "bank_not_open", "no_bank_found"]

/-- A result reason is absent or drawn from the source reason set. -/
def reasonOkB (r : Option String) : Bool :=
  match r with
  | none => true
  | some s => codeReasons.contains s

/-- Counterexample to claim C8 as stated: a cast with too few runes makes
`castSpellOnNpc` return reason `no_runes`, which is not in the closed
taxonomy of spec section 7. -/
theorem reason_taxonomy_counterexample :
    (castSpellOnNpc (.handle ⟨7, "Goblin", 5, [⟨"Attack", 2⟩]⟩) 100
      (some ⟨0, none, [], [], [], [], [], [], ⟨false, "", [], []⟩, false,
        ⟨false, []⟩⟩)
      ⟨true, "ok"⟩
      [⟨1, none, [], [], [],
        [⟨1, "You do not have enough runes to cast this spell."⟩], [], [],
        ⟨false, "", [], []⟩, false, ⟨false, []⟩⟩]).1.reason =
      some "no_runes" ∧
    "no_runes" ∉ sectionSevenTaxonomy := by
  constructor
  · decide
  · decide

theorem openBankLoop_reasonOk :
    ∀ (rounds : List (List Snapshot × Option Snapshot))
      (finalRead : Option Snapshot) (cmds : List Cmd),
      reasonOkB (openBankLoop rounds finalRead cmds).1.reason = true := by
  intro rounds
  induction rounds with
  | nil =>
    intro finalRead cmds
    unfold openBankLoop
    split
    · split <;> rfl
    · rfl
  | cons r rest ih =>
    intro finalRead cmds
    obtain ⟨ws, post⟩ := r
    unfold openBankLoop
    split
    · split
      · split
        · rfl
        · split
          · exact ih finalRead _
          · exact ih finalRead cmds
      · exact ih finalRead cmds
    · exact ih finalRead cmds

/-- Claim C8 (amended): every `reason` any reason-bearing operation can
return is drawn from the source reason set `codeReasons` — the section 7
taxonomy extended with the per-entity not-found reasons (`door_not_found`,
`npc_not_found`, `item_not_found`), the per-action no-option reasons
(`no_open_option`, `no_attack_option`), `open_failed`, `no_runes`,
`bank_not_open` and `no_bank_found` (shop/bank refusals are signalled by a
`rejected` flag, not the reason field).  Stated over every input of every
modelled reason-bearing operation: `openDoor`, `pickupItem`, `attackNpc`,
`castSpellOnNpc`, `depositItem`, `withdrawItem`, `openBank`. -/
theorem reasons_within_code_taxonomy :
    (∀ target s0 walkRes locsRead tickRead stream finalRead,
      reasonOkB (openDoor target s0 walkRes locsRead tickRead stream
        finalRead).1.reason = true) ∧
    (∀ target ground s0 ack stream finalRead,
      reasonOkB (pickupItem target ground s0 ack stream
        finalRead).1.reason = true) ∧
    (∀ target s0 ack stream,
      reasonOkB (attackNpc target s0 ack stream).1.reason = true) ∧
    (∀ target spellComponent s0 ack stream,
      reasonOkB (castSpellOnNpc target spellComponent s0 ack
        stream).1.reason = true) ∧
    (∀ target amount s0 ack stream finalRead,
      reasonOkB (depositItem target amount s0 ack stream
        finalRead).1.reason = true) ∧
    (∀ bankSlot amount s0 ack stream finalRead,
      reasonOkB (withdrawItem bankSlot amount s0 ack stream
        finalRead).1.reason = true) ∧
    (∀ s0 dismissReads findRead rounds finalRead,
      reasonOkB (openBank s0 dismissReads findRead rounds
        finalRead).1.reason = true) := by
  refine ⟨?_, ?_, ?_, ?_, ?_, ?_, ?_⟩
  · intro target s0 walkRes locsRead tickRead stream finalRead
    unfold openDoor openDoorWait
    dsimp only
    repeat' split
    all_goals rfl
  · intro target ground s0 ack stream finalRead
    unfold pickupItem
    dsimp only
    repeat' split
    all_goals rfl
  · intro target s0 ack stream
    unfold attackNpc
    dsimp only
    repeat' split
    all_goals rfl
  · intro target spellComponent s0 ack stream
    unfold castSpellOnNpc
    dsimp only
    repeat' split
    all_goals rfl
  · intro target amount s0 ack stream finalRead
    unfold depositItem
    dsimp only
    repeat' split
    all_goals rfl
  · intro bankSlot amount s0 ack stream finalRead
    unfold withdrawItem
    dsimp only
    repeat' split
    all_goals rfl
  · intro s0 dismissReads findRead rounds finalRead
    unfold openBank
    dsimp only
    repeat' split
    all_goals first
      | rfl
      | apply openBankLoop_reasonOk

end RsSdk
